import Mathlib

/-!
Verification development for the genetic health analysis pipeline
(`skills/health/scripts`): shallow embedding of the genome indexing,
ClinVar matching, zygosity classification, curated-rule matching,
PharmGKB matching, numeric-field parsing and finding-sort logic,
together with theorems settling the specification's claims.

Python semantics are modelled explicitly: dictionaries are association
lists with update-in-place insertion and first-match lookup, `x in s`
on strings is substring containment, `s[::-1]` is string reversal,
`s.lower()` is ASCII lowercasing, and `s.split('\t')` splits on every
tab without collapsing.
-/

/-- ASCII lowercase of one character, as Python `str.lower` acts on the
ASCII range used by this data. -/
def pyCharLower (c : Char) : Char :=
  if 'A' ≤ c ∧ c ≤ 'Z' then Char.ofNat (c.toNat + 32) else c

/-- Python `s.lower()`. -/
def pyLower (s : String) : String := ⟨s.data.map pyCharLower⟩

/-- Is `n` a prefix of `h` (character lists)? -/
def listPref : List Char → List Char → Bool
  | [], _ => true
  | _ :: _, [] => false
  | a :: t, b :: u => a = b && listPref t u

/-- Does `n` occur as a contiguous sublist of `h`? -/
def listSub (n : List Char) : List Char → Bool
  | [] => listPref n []
  | c :: t => listPref n (c :: t) || listSub n t

/-- Python `pat in hay` on strings: substring containment. -/
def strContains (hay pat : String) : Bool := listSub pat.data hay.data

/-- Python `s[::-1]`: string reversal. -/
def strRev (s : String) : String := ⟨s.data.reverse⟩

/-- Python whitespace characters stripped by `str.strip()`. -/
def pySpaceChar (c : Char) : Bool :=
  c = ' ' || c = '\t' || c = '\n' || c = '\r' || c = '\x0b' || c = '\x0c'

/-- Python `s.strip()` on a character list. -/
def pyStripList (l : List Char) : List Char :=
  ((l.dropWhile pySpaceChar).reverse.dropWhile pySpaceChar).reverse

/-- Python `s.strip()`. -/
def pyStrip (s : String) : String := ⟨pyStripList s.data⟩

/-- Split a character list at every occurrence of `sep` (no collapsing),
as Python `s.split(sep)` with an explicit separator. -/
def splitCharList (sep : Char) : List Char → List (List Char)
  | [] => [[]]
  | c :: t =>
    match splitCharList sep t with
    | [] => [[c]]
    | h :: r => if c = sep then [] :: h :: r else (c :: h) :: r

/-- Python `s.split('\t')`. -/
def pySplitTab (s : String) : List String :=
  (splitCharList '\t' s.data).map (fun l => ⟨l⟩)

/-- Python dictionary lookup `d.get(k)` on an association list:
first match wins. -/
def dictGet {β : Type} (k : String) : List (String × β) → Option β
  | [] => none
  | (k', v) :: t => if k' = k then some v else dictGet k t

/-- Python dictionary assignment `d[k] = v`: replace in place if the key
is present, otherwise append. -/
def dictInsert {β : Type} (k : String) (v : β) : List (String × β) → List (String × β)
  | [] => [(k, v)]
  | (k', v') :: t => if k' = k then (k, v) :: t else (k', v') :: dictInsert k v t

/-- Python `a or b` where `a`, `b` are optional strings and the empty
string is falsy. -/
def pyOrStr (a b : Option String) : Option String :=
  match a with
  | some s => if s = "" then b else some s
  | none => b

/-- Truthiness of an optional string in Python. -/
def pyTruthy (a : Option String) : Bool :=
  match a with
  | some s => s ≠ ""
  | none => false

/-- Parse a nonempty all-digit character list as a natural number. -/
def parseDigits : List Char → Option Nat
  | [] => none
  | l => go l 0
where
  go : List Char → Nat → Option Nat
    | [], acc => some acc
    | c :: t, acc => if c.isDigit then go t (acc * 10 + (c.toNat - 48)) else none

/-- Python `int(s)` for base 10: optional surrounding whitespace,
optional sign, then digits; `none` models a `ValueError`. -/
def pyInt (s : String) : Option Int :=
  match pyStripList s.data with
  | '+' :: t => (parseDigits t).map Int.ofNat
  | '-' :: t => (parseDigits t).map (fun n => -(n : Int))
  | t => (parseDigits t).map Int.ofNat

/-- Value of a digit list read as a decimal fraction numerator, together
with its length (used for the implied power-of-ten denominator). -/
def fracVal (l : List Char) : Option (Nat × Nat) :=
  match l with
  | [] => some (0, 0)
  | _ => (parseDigits l).map (fun n => (n, l.length))

/-- Parse mantissa digits `intpart[.fracpart]` (at least one digit in
total) into a rational. -/
def parseMantissa (l : List Char) : Option ℚ :=
  match splitCharList '.' l with
  | [ip] => (parseDigits ip).map (fun n => (n : ℚ))
  | [ip, fp] =>
    if ip = [] ∧ fp = [] then none
    else
      match (if ip = [] then some 0 else parseDigits ip), fracVal fp with
      | some n, some (f, k) => some ((n : ℚ) + (f : ℚ) / (10 : ℚ) ^ k)
      | _, _ => none
  | _ => none

/-- Parse an optional exponent suffix split at `e`/`E`. -/
def parseExp (l : List Char) : Option Int :=
  match l with
  | '+' :: t => (parseDigits t).map Int.ofNat
  | '-' :: t => (parseDigits t).map (fun n => -(n : Int))
  | t => (parseDigits t).map Int.ofNat

/-- Split a character list at the first `e` or `E`, if any. -/
def splitAtE : List Char → (List Char × Option (List Char))
  | [] => ([], none)
  | c :: t =>
    if c = 'e' ∨ c = 'E' then ([], some t)
    else
      match splitAtE t with
      | (m, r) => (c :: m, r)

/-- Python `float(s)` restricted to finite decimal literals
(`[+-]digits[.digits][(e|E)[+-]digits]` with surrounding whitespace);
`none` models a `ValueError`. -/
def pyFloat (s : String) : Option ℚ :=
  let body := pyStripList s.data
  let signedBody :=
    match body with
    | '+' :: t => some ((1 : ℚ), t)
    | '-' :: t => some ((-1 : ℚ), t)
    | t => some ((1 : ℚ), t)
  match signedBody with
  | some (sign, rest) =>
    match splitAtE rest with
    | (m, none) => (parseMantissa m).map (fun q => sign * q)
    | (m, some e) =>
      match parseMantissa m, parseExp e with
      | some q, some ex => some (sign * q * (10 : ℚ) ^ ex)
      | _, _ => none
  | none => none

/-!
### Genome indexing (`load_genome` in `run_full_analysis.py`,
`disease_risk_analyzer.py` and `enhanced_analysis.py`)

Each non-comment line with at least four tab-separated fields and a
genotype other than the no-call sentinel `--` is inserted into both
dictionaries.
-/

/-- One surviving genotype call, as parsed from a genome file line. -/
structure GCall where
  rsid : String
  chrom : String
  pos : String
  genotype : String
deriving DecidableEq, Repr

/-- Value stored in `genome_by_rsid`. -/
structure GEntry where
  chromosome : String
  position : String
  genotype : String
deriving DecidableEq, Repr

/-- Value stored in `genome_by_position`. -/
structure PosEntry where
  rsid : String
  genotype : String
deriving DecidableEq, Repr

/-- Parse one genome-file line: skip comment lines, lines with fewer
than four tab-separated fields, and no-call (`--`) genotypes. -/
def parseGenomeLine (line : String) : Option GCall :=
  if listPref ['#'] line.data then none
  else
    let parts := pySplitTab (pyStrip line)
    if parts.length ≥ 4 then
      let rsid := parts.getD 0 ""
      let chrom := parts.getD 1 ""
      let pos := parts.getD 2 ""
      let genotype := parts.getD 3 ""
      if genotype ≠ "--" then some ⟨rsid, chrom, pos, genotype⟩ else none
    else none

/-- All surviving calls of a genome file, in input order. -/
def parseCalls (lines : List String) : List GCall := lines.filterMap parseGenomeLine

/-- The `"{chrom}:{pos}"` position key of a call. -/
def posKeyOf (c : GCall) : String := c.chrom ++ ":" ++ c.pos

/-- `genome_by_rsid`: rsID-keyed dictionary built by the load loop. -/
def genome_by_rsid (lines : List String) : List (String × GEntry) :=
  (parseCalls lines).foldl
    (fun d c => dictInsert c.rsid ⟨c.chrom, c.pos, c.genotype⟩ d) []

/-- `genome_by_position`: position-keyed dictionary built by the load loop. -/
def genome_by_position (lines : List String) : List (String × PosEntry) :=
  (parseCalls lines).foldl
    (fun d c => dictInsert (posKeyOf c) ⟨c.rsid, c.genotype⟩ d) []

/-!
### ClinVar matching
(`load_clinvar` in `disease_risk_analyzer.py` and
`load_clinvar_and_analyze` in `run_full_analysis.py`)
-/

/-- The fields of a ClinVar row consumed by the matching logic. -/
structure ClinvarRow where
  chrom : String
  pos : String
  ref : String
  alt : String
  clinical_significance : String
  review_status : String
  gold_stars : String
  all_traits : String
  inheritance_modes : String
  symbol : String
deriving DecidableEq, Repr

/-- The category buckets of the ClinVar classification chains. -/
inductive Bucket where
  | pathogenic
  | likelyPathogenic
  | riskFactor
  | drugResponse
  | protective
  | otherSignificant
  | uncertainButNotable
deriving DecidableEq, Repr

/-- `int(row['gold_stars']) if row['gold_stars'] else 0`: an empty field
defaults to 0; a nonempty field goes through `int`, whose failure is a
`ValueError` that aborts the run. -/
def gold_stars_field (s : String) : Except String Int :=
  if s = "" then .ok 0
  else
    match pyInt s with
    | some n => .ok n
    | none => .error "ValueError"

/-- The ClinVar finding record built by both loaders (fields shared by
the two scripts). -/
structure ClinFinding where
  chromosome : String
  position : String
  rsid : String
  gene : String
  ref : String
  alt : String
  user_genotype : String
  is_homozygous : Bool
  is_heterozygous : Bool
  clinical_significance : String
  review_status : String
  gold_stars : Int
  traits : String
  inheritance : String
deriving DecidableEq, Repr

/-- The `if`/`elif` significance chain of `load_clinvar`
(`disease_risk_analyzer.py`, lines 154-170); `sig` is the lowercased
significance text, `stars` the parsed gold-star count. -/
def categorize_dra (sig : String) (stars : Int) : Option Bucket :=
  if strContains sig "pathogenic" && !strContains sig "likely" && !strContains sig "conflict" then
    some .pathogenic
  else if strContains sig "likely pathogenic" || strContains sig "likely_pathogenic" then
    some .likelyPathogenic
  else if strContains sig "risk factor" || strContains sig "risk_factor" then
    some .riskFactor
  else if strContains sig "drug response" || strContains sig "drug_response" then
    some .drugResponse
  else if strContains sig "protective" then
    some .protective
  else if strContains sig "association" || strContains sig "affects" then
    some .otherSignificant
  else if strContains sig "uncertain" && decide (stars ≥ 2) then
    some .uncertainButNotable
  else none

/-- The `if`/`elif` significance chain of `load_clinvar_and_analyze`
(`run_full_analysis.py`, lines 302-315): identical to `categorize_dra`
except that it has no `uncertain_but_notable` bucket. -/
def categorize_rfa (sig : String) (stars : Int) : Option Bucket :=
  if strContains sig "pathogenic" && !strContains sig "likely" && !strContains sig "conflict" then
    some .pathogenic
  else if strContains sig "likely pathogenic" || strContains sig "likely_pathogenic" then
    some .likelyPathogenic
  else if strContains sig "risk factor" || strContains sig "risk_factor" then
    some .riskFactor
  else if strContains sig "drug response" || strContains sig "drug_response" then
    some .drugResponse
  else if strContains sig "protective" then
    some .protective
  else if strContains sig "association" || strContains sig "affects" then
    some .otherSignificant
  else none

/-- First-match-wins evaluation of an ordered `(predicate, bucket)`
rule list. -/
def firstMatch (rules : List ((String → Int → Bool) × Bucket)) (sig : String) (stars : Int) :
    Option Bucket :=
  match rules with
  | [] => none
  | (p, b) :: t => if p sig stars then some b else firstMatch t sig stars

/-- Modelled from the spec: the first six significance rules of §4.3
step 5, in the spec's order (`pathogenic`, excluding "likely" and
"conflict", then `likely_pathogenic`, `risk_factor`, `drug_response`,
`protective`, `association/affects`). -/
def specSigRulesCommon : List ((String → Int → Bool) × Bucket) :=
  [ (fun s _ => strContains s "pathogenic" && !strContains s "likely" && !strContains s "conflict",
      .pathogenic),
    (fun s _ => strContains s "likely pathogenic" || strContains s "likely_pathogenic",
      .likelyPathogenic),
    (fun s _ => strContains s "risk factor" || strContains s "risk_factor", .riskFactor),
    (fun s _ => strContains s "drug response" || strContains s "drug_response", .drugResponse),
    (fun s _ => strContains s "protective", .protective),
    (fun s _ => strContains s "association" || strContains s "affects", .otherSignificant) ]

/-- Modelled from the spec: the full ordered rule list of §4.3 step 5,
ending with (`uncertain` AND confidence_tier ≥ 2 → `uncertain_but_notable`). -/
def specSigRules : List ((String → Int → Bool) × Bucket) :=
  specSigRulesCommon ++
    [ (fun s stars => strContains s "uncertain" && decide (stars ≥ 2), .uncertainButNotable) ]

/-- The finding record both ClinVar loaders build for a matched SNV the
individual carries: `is_homozygous` is `user_genotype == alt+alt`,
`is_heterozygous` is `has_variant and not is_homozygous`. -/
def mkClinFinding (row : ClinvarRow) (user_genotype rsid : String) (stars : Int) : ClinFinding :=
  { chromosome := row.chrom, position := row.pos, rsid := rsid,
    gene := row.symbol, ref := row.ref, alt := row.alt,
    user_genotype := user_genotype,
    is_homozygous := user_genotype == row.alt ++ row.alt,
    is_heterozygous := strContains user_genotype row.alt && !(user_genotype == row.alt ++ row.alt),
    clinical_significance := row.clinical_significance,
    review_status := row.review_status, gold_stars := stars,
    traits := row.all_traits, inheritance := row.inheritance_modes }

/-- Per-record matching logic of `load_clinvar`
(`disease_risk_analyzer.py`), given the genotype and rsID found at the
record's position key: SNV filter, homozygous-reference check
(`has_ref_only`), variant-presence check (`has_variant`), finding
construction (whose `gold_stars` conversion can raise), and
significance classification. The result is `ok none` when the record is
skipped or matches no bucket, `ok (some (b, f))` when the finding `f`
is appended to bucket `b`, and `error` when the `int` conversion raises. -/
def processClinvarDRA (row : ClinvarRow) (user_genotype rsid : String) :
    Except String (Option (Bucket × ClinFinding)) :=
  if row.ref.length ≠ 1 ∨ row.alt.length ≠ 1 then .ok none
  else if user_genotype == row.ref ++ row.ref then .ok none
  else if !strContains user_genotype row.alt then .ok none
  else
    match gold_stars_field row.gold_stars with
    | .error e => .error e
    | .ok stars =>
      .ok ((categorize_dra (pyLower row.clinical_significance) stars).map
        (fun b => (b, mkClinFinding row user_genotype rsid stars)))

/-- Per-record matching logic of `load_clinvar_and_analyze`
(`run_full_analysis.py`); identical to `processClinvarDRA` except that
the two skip conditions are one `or` and the classification chain is
the shorter one. -/
def processClinvarRFA (row : ClinvarRow) (user_genotype rsid : String) :
    Except String (Option (Bucket × ClinFinding)) :=
  if row.ref.length ≠ 1 ∨ row.alt.length ≠ 1 then .ok none
  else if (user_genotype == row.ref ++ row.ref) || !strContains user_genotype row.alt then .ok none
  else
    match gold_stars_field row.gold_stars with
    | .error e => .error e
    | .ok stars =>
      .ok ((categorize_rfa (pyLower row.clinical_significance) stars).map
        (fun b => (b, mkClinFinding row user_genotype rsid stars)))

/-!
### Zygosity classification
(`classify_zygosity_impact` in `disease_risk_analyzer.py`,
`classify_zygosity` and the inline classification of
`generate_actionable_protocol` in `run_full_analysis.py`)
-/

/-- `inheritance = finding['inheritance'].lower() if finding['inheritance'] else ''`. -/
def inheritanceLower (raw : String) : String :=
  if raw ≠ "" then pyLower raw else ""

/-- `classify_zygosity_impact` (`disease_risk_analyzer.py`, lines
180-198), over the zygosity flags and the raw inheritance text; returns
the `(status, description)` pair. -/
def classify_zygosity_impact (is_hom is_het : Bool) (inheritanceRaw : String) :
    String × String :=
  if is_hom then ("AFFECTED", "Homozygous for variant allele")
  else if is_het then
    if strContains (inheritanceLower inheritanceRaw) "recessive" then
      ("CARRIER", "Heterozygous carrier (autosomal recessive condition)")
    else if strContains (inheritanceLower inheritanceRaw) "dominant" then
      ("AFFECTED", "Heterozygous (autosomal dominant - one copy sufficient)")
    else if strContains (inheritanceLower inheritanceRaw) "x-linked" then
      ("CARRIER/AT_RISK", "X-linked variant (impact depends on sex)")
    else
      ("HETEROZYGOUS", "Heterozygous (inheritance pattern not specified)")
  else ("UNKNOWN", "Zygosity unclear")

/-- `classify_zygosity` (`run_full_analysis.py`, lines 325-338): like
`classify_zygosity_impact` but with no `x-linked` branch. -/
def classify_zygosity (is_hom is_het : Bool) (inheritanceRaw : String) :
    String × String :=
  if is_hom then ("AFFECTED", "Homozygous for variant")
  else if is_het then
    if strContains (inheritanceLower inheritanceRaw) "recessive" then
      ("CARRIER", "Heterozygous carrier (recessive)")
    else if strContains (inheritanceLower inheritanceRaw) "dominant" then
      ("AFFECTED", "Heterozygous (dominant)")
    else
      ("HETEROZYGOUS", "Heterozygous (inheritance unclear)")
  else ("UNKNOWN", "Zygosity unclear")

/-- The inline classification of `generate_actionable_protocol`
(`run_full_analysis.py`, lines 675-686): each pathogenic finding is
appended to `affected`, `carriers` or `het_unknown`, or dropped when it
is neither homozygous nor heterozygous. The result names the list the
finding joins (`none` = dropped). -/
def protocol_classify (is_hom is_het : Bool) (inheritanceRaw : String) : Option String :=
  if is_hom then some "AFFECTED"
  else if is_het then
    if strContains (pyLower inheritanceRaw) "recessive" then some "CARRIER"
    else if strContains (pyLower inheritanceRaw) "dominant" then some "AFFECTED"
    else some "HETEROZYGOUS"
  else none

/-- Modelled from the spec: the §4.4 decision table, rows applied top to
bottom (case-insensitive substring matching on the inheritance text). -/
def specZygosityTable (is_hom is_het : Bool) (inheritanceText : String) : String :=
  if is_hom then "AFFECTED"
  else if is_het then
    if strContains (inheritanceLower inheritanceText) "recessive" then "CARRIER"
    else if strContains (inheritanceLower inheritanceText) "dominant" then "AFFECTED"
    else if strContains (inheritanceLower inheritanceText) "x-linked" then "CARRIER/AT_RISK"
    else "HETEROZYGOUS"
  else "UNKNOWN"

/-!
### Numeric-field parsing
(`safe_float` in `DatabaseLoader._load_gnomad`, the SNPedia magnitude
parse in `DatabaseLoader._load_snpedia`, and the `gold_stars`
conversion of the ClinVar loaders)
-/

/-- `safe_float` (`database_loader.py`, lines 266-273): `None`, the
empty string and the NA sentinels map to the default, and so does any
value `float` rejects. -/
def safe_float (val : Option String) (default : ℚ) : ℚ :=
  match val with
  | none => default
  | some s =>
    if s = "" ∨ s = "NA" ∨ s = "nan" ∨ s = "NaN" then default
    else
      match pyFloat s with
      | some q => q
      | none => default

/-- The SNPedia magnitude parse (`database_loader.py`, lines 343-347):
`float(magnitude) if magnitude and magnitude != '' else 0` inside a
`try`/`except` that falls back to 0. -/
def snpedia_magnitude (s : String) : ℚ :=
  if s ≠ "" then
    match pyFloat s with
    | some q => q
    | none => 0
  else 0

/-!
### PharmGKB matching
(`analyze_lifestyle_health` in `run_full_analysis.py`, lines 191-206,
and the identical loop of `analyze_genome` in `full_health_analysis.py`,
lines 124-140)
-/

/-- One entry of the `pharmgkb` dictionary (keyed by rsID). -/
structure PharmEntry where
  gene : String
  drugs : String
  phenotype : String
  level : String
  category : String
  genotypes : List (String × String)
deriving DecidableEq, Repr

/-- A PharmGKB finding as appended to `pharmgkb_findings`. -/
structure PFinding where
  rsid : String
  gene : String
  drugs : String
  genotype : String
  annText : String
  level : String
  category : String
deriving DecidableEq, Repr

/-- Annotation lookup of the PharmGKB matching loop:
`info['genotypes'].get(genotype) or info['genotypes'].get(genotype_rev)`
with Python or-truthiness and two-character reversal. -/
def pharmAnn (genotypes : List (String × String)) (genotype : String) : Option String :=
  pyOrStr (dictGet genotype genotypes)
    (dictGet (if genotype.length = 2 then strRev genotype else genotype) genotypes)

/-- The PharmGKB matching loop: for each `(rsid, info)` with a genotype
in the genome, look the annotation text up via `pharmAnn`, and emit a
finding only when that text is truthy and the evidence level is one of
1A/1B/2A/2B. -/
def analyze_pharmgkb (pharmgkb : List (String × PharmEntry))
    (genomeByRsid : List (String × GEntry)) : List PFinding :=
  pharmgkb.filterMap (fun p =>
    match dictGet p.1 genomeByRsid with
    | none => none
    | some ge =>
      if pyTruthy (pharmAnn p.2.genotypes ge.genotype) ∧
          (p.2.level = "1A" ∨ p.2.level = "1B" ∨ p.2.level = "2A" ∨ p.2.level = "2B") then
        some { rsid := p.1, gene := p.2.gene, drugs := p.2.drugs, genotype := ge.genotype,
               annText := (pharmAnn p.2.genotypes ge.genotype).getD "",
               level := p.2.level, category := p.2.category }
      else none)

/-!
### Finding sorts
(`analyze_lifestyle_health` lines 208-210 and `generate_report` /
`generate_disease_risk_report` lines 317-323 / 413-418)

Python `list.sort(key=...)` is a stable ascending sort by key; a stable
sort by a total preorder has a unique result, so `List.insertionSort`
with the key-induced relation is an exact model.
-/

/-- A lifestyle/health finding (the fields the sort touches). -/
structure LFinding where
  gene : String
  magnitude : Nat
deriving DecidableEq, Repr

/-- Key order of `results['findings'].sort(key=lambda x: -x['magnitude'])`:
ascending `-magnitude`, i.e. descending magnitude. -/
def magDescRel (a b : LFinding) : Prop := b.magnitude ≤ a.magnitude

instance : DecidableRel magDescRel := fun a b => Nat.decLe _ _

instance : IsTotal LFinding magDescRel := ⟨fun a b => le_total b.magnitude a.magnitude⟩

instance : IsTrans LFinding magDescRel := ⟨fun _ _ _ h1 h2 => le_trans h2 h1⟩

/-- `results['findings'].sort(key=lambda x: -x['magnitude'])`. -/
def sortLifestyle (l : List LFinding) : List LFinding := List.insertionSort magDescRel l

/-- Key order of `.sort(key=lambda x: (-x['gold_stars'], x['gene']))`:
ascending lexicographic order on `(-gold_stars, gene)`. -/
def starsGeneRel (a b : ClinFinding) : Prop :=
  b.gold_stars < a.gold_stars ∨ (a.gold_stars = b.gold_stars ∧ a.gene ≤ b.gene)

instance : DecidableRel starsGeneRel := fun _ _ => instDecidableOr

instance : IsTotal ClinFinding starsGeneRel := by
  constructor
  intro a b
  rcases lt_trichotomy a.gold_stars b.gold_stars with h | h | h
  · exact Or.inr (Or.inl h)
  · rcases le_total a.gene b.gene with hg | hg
    · exact Or.inl (Or.inr ⟨h, hg⟩)
    · exact Or.inr (Or.inr ⟨h.symm, hg⟩)
  · exact Or.inl (Or.inl h)

instance : IsTrans ClinFinding starsGeneRel := by
  constructor
  intro a b c h1 h2
  rcases h1 with h1 | ⟨h1e, h1g⟩
  · rcases h2 with h2 | ⟨h2e, _⟩
    · exact Or.inl (lt_trans h2 h1)
    · exact Or.inl (h2e ▸ h1)
  · rcases h2 with h2 | ⟨h2e, h2g⟩
    · exact Or.inl (h1e ▸ h2)
    · exact Or.inr ⟨h1e.trans h2e, le_trans h1g h2g⟩

/-- `.sort(key=lambda x: (-x['gold_stars'], x['gene']))`, applied to the
affected / carrier / het-unknown / risk-factor / drug-response /
protective lists of the disease-risk reports. -/
def sortDisease (l : List ClinFinding) : List ClinFinding := List.insertionSort starsGeneRel l

/-- Key order of `pharmgkb_findings.sort(key=lambda x: x['level'])`. -/
def levelRel (a b : PFinding) : Prop := a.level ≤ b.level

instance : DecidableRel levelRel := fun a b => String.decidableLE a.level b.level

instance : IsTotal PFinding levelRel := ⟨fun a b => le_total a.level b.level⟩

instance : IsTrans PFinding levelRel := ⟨fun _ _ _ h1 h2 => le_trans h1 h2⟩

/-- `pharmgkb_findings.sort(key=lambda x: x['level'])`. -/
def sortPharm (l : List PFinding) : List PFinding := List.insertionSort levelRel l

/-!
### Curated SNP rules (`COMPREHENSIVE_SNPS` in
`comprehensive_snp_database.py`) and the curated-rule lookup of
`analyze_genome` / `analyze_lifestyle_health` / `analyze_curated_snps`
-/

/-- One genotype interpretation of a curated rule. -/
structure VariantInfo where
  status : String
  desc : String
  magnitude : Nat
deriving DecidableEq, Repr

/-- One curated rule (the fields the matching logic reads). -/
structure SnpRule where
  gene : String
  category : String
  variants : List (String × VariantInfo)
deriving DecidableEq, Repr

/-- Rule rs762551 of `COMPREHENSIVE_SNPS`. -/
def rule_rs762551 : SnpRule :=
  { gene := "CYP1A2", category := "Drug Metabolism",
    variants := [("AA", ⟨"fast", "Fast caffeine metabolizer - clears caffeine quickly, lower cardiovascular risk from coffee", 1⟩), ("AC", ⟨"intermediate", "Intermediate caffeine metabolizer - moderate clearance, ~5-6hr half-life", 2⟩), ("CC", ⟨"slow", "Slow caffeine metabolizer - caffeine lingers 8-12hrs, increased cardiovascular risk with high intake", 3⟩)] }

/-- Rule rs4244285 of `COMPREHENSIVE_SNPS`. -/
def rule_rs4244285 : SnpRule :=
  { gene := "CYP2C19", category := "Drug Metabolism",
    variants := [("GG", ⟨"normal", "Normal CYP2C19 - standard drug metabolism", 0⟩), ("GA", ⟨"intermediate", "Intermediate CYP2C19 (*2 carrier) - clopidogrel less effective", 3⟩), ("AA", ⟨"poor", "Poor CYP2C19 (*2/*2) - clopidogrel ineffective, use alternative antiplatelet", 4⟩)] }

/-- Rule rs12248560 of `COMPREHENSIVE_SNPS`. -/
def rule_rs12248560 : SnpRule :=
  { gene := "CYP2C19", category := "Drug Metabolism",
    variants := [("CC", ⟨"normal", "Normal CYP2C19 metabolism", 0⟩), ("CT", ⟨"rapid", "Rapid CYP2C19 (*17) - faster metabolism of PPIs, some antidepressants, may need higher doses", 2⟩), ("TT", ⟨"ultrarapid", "Ultrarapid CYP2C19 (*17/*17) - significantly faster drug metabolism", 3⟩)] }

/-- Rule rs1799853 of `COMPREHENSIVE_SNPS`. -/
def rule_rs1799853 : SnpRule :=
  { gene := "CYP2C9", category := "Drug Metabolism",
    variants := [("CC", ⟨"normal", "Normal CYP2C9 - standard warfarin/NSAID metabolism", 0⟩), ("CT", ⟨"intermediate", "Intermediate CYP2C9 (*2) - warfarin dose reduction needed", 3⟩), ("TT", ⟨"poor", "Poor CYP2C9 (*2/*2) - significant warfarin sensitivity", 4⟩)] }

/-- Rule rs1057910 of `COMPREHENSIVE_SNPS`. -/
def rule_rs1057910 : SnpRule :=
  { gene := "CYP2C9", category := "Drug Metabolism",
    variants := [("AA", ⟨"normal", "Normal CYP2C9 function", 0⟩), ("AC", ⟨"intermediate", "Intermediate CYP2C9 (*3) - warfarin dose reduction", 3⟩), ("CC", ⟨"poor", "Poor CYP2C9 (*3/*3) - high warfarin sensitivity", 4⟩)] }

/-- Rule rs9923231 of `COMPREHENSIVE_SNPS`. -/
def rule_rs9923231 : SnpRule :=
  { gene := "VKORC1", category := "Drug Metabolism",
    variants := [("GG", ⟨"normal", "Normal warfarin sensitivity", 0⟩), ("GA", ⟨"sensitive", "Increased warfarin sensitivity - lower doses needed", 3⟩), ("AG", ⟨"sensitive", "Increased warfarin sensitivity - lower doses needed", 3⟩), ("AA", ⟨"highly_sensitive", "Highly warfarin sensitive - significantly lower doses", 4⟩)] }

/-- Rule rs4149056 of `COMPREHENSIVE_SNPS`. -/
def rule_rs4149056 : SnpRule :=
  { gene := "SLCO1B1", category := "Drug Metabolism",
    variants := [("TT", ⟨"normal", "Normal statin transport - standard myopathy risk", 0⟩), ("TC", ⟨"intermediate", "Intermediate statin transporter - 4x myopathy risk with simvastatin", 3⟩), ("CT", ⟨"intermediate", "Intermediate statin transporter - 4x myopathy risk with simvastatin", 3⟩), ("CC", ⟨"poor", "Poor statin transporter - 17x myopathy risk, avoid simvastatin", 4⟩)] }

/-- Rule rs3892097 of `COMPREHENSIVE_SNPS`. -/
def rule_rs3892097 : SnpRule :=
  { gene := "CYP2D6", category := "Drug Metabolism",
    variants := [("GG", ⟨"normal", "Normal CYP2D6 - standard codeine/tramadol metabolism", 0⟩), ("GA", ⟨"intermediate", "Intermediate CYP2D6 - reduced opioid activation", 3⟩), ("AG", ⟨"intermediate", "Intermediate CYP2D6 - reduced opioid activation", 3⟩), ("AA", ⟨"poor", "Poor CYP2D6 (*4/*4) - codeine ineffective, tramadol reduced", 4⟩)] }

/-- Rule rs776746 of `COMPREHENSIVE_SNPS`. -/
def rule_rs776746 : SnpRule :=
  { gene := "CYP3A5", category := "Drug Metabolism",
    variants := [("TT", ⟨"expressor", "CYP3A5 expressor - may need higher tacrolimus doses", 2⟩), ("TC", ⟨"intermediate", "Intermediate CYP3A5 expression", 1⟩), ("CT", ⟨"intermediate", "Intermediate CYP3A5 expression", 1⟩), ("CC", ⟨"non_expressor", "CYP3A5 non-expressor (*3/*3) - standard tacrolimus dosing", 1⟩)] }

/-- Rule rs3918290 of `COMPREHENSIVE_SNPS`. -/
def rule_rs3918290 : SnpRule :=
  { gene := "DPYD", category := "Drug Metabolism",
    variants := [("CC", ⟨"normal", "Normal DPYD - standard fluoropyrimidine tolerance", 0⟩), ("CT", ⟨"intermediate", "Reduced DPYD - 50% dose reduction for 5-FU/capecitabine", 5⟩), ("TT", ⟨"deficient", "DPYD deficient - fluoropyrimidines contraindicated (can be fatal)", 6⟩)] }

/-- Rule rs1800460 of `COMPREHENSIVE_SNPS`. -/
def rule_rs1800460 : SnpRule :=
  { gene := "TPMT", category := "Drug Metabolism",
    variants := [("CC", ⟨"normal", "Normal TPMT - standard thiopurine tolerance", 0⟩), ("CT", ⟨"intermediate", "Intermediate TPMT - thiopurine dose reduction needed", 4⟩), ("TC", ⟨"intermediate", "Intermediate TPMT - thiopurine dose reduction needed", 4⟩), ("TT", ⟨"poor", "Poor TPMT - thiopurines can cause severe myelosuppression", 5⟩)] }

/-- Rule rs2395029 of `COMPREHENSIVE_SNPS`. -/
def rule_rs2395029 : SnpRule :=
  { gene := "HLA-B", category := "Drug Metabolism",
    variants := [("TT", ⟨"normal", "Low abacavir hypersensitivity risk", 0⟩), ("TG", ⟨"carrier", "HLA-B*5701 carrier - abacavir contraindicated", 5⟩), ("GT", ⟨"carrier", "HLA-B*5701 carrier - abacavir contraindicated", 5⟩), ("GG", ⟨"positive", "HLA-B*5701 positive - abacavir contraindicated", 5⟩)] }

/-- Rule rs1801133 of `COMPREHENSIVE_SNPS`. -/
def rule_rs1801133 : SnpRule :=
  { gene := "MTHFR", category := "Methylation",
    variants := [("GG", ⟨"normal", "Normal MTHFR C677 - full methylation capacity", 0⟩), ("AG", ⟨"reduced", "MTHFR C677T heterozygous - ~35% reduced activity, may benefit from methylfolate", 2⟩), ("GA", ⟨"reduced", "MTHFR C677T heterozygous - ~35% reduced activity, may benefit from methylfolate", 2⟩), ("AA", ⟨"significantly_reduced", "MTHFR C677T homozygous - ~70% reduced activity, methylfolate recommended over folic acid", 3⟩)] }

/-- Rule rs1801131 of `COMPREHENSIVE_SNPS`. -/
def rule_rs1801131 : SnpRule :=
  { gene := "MTHFR", category := "Methylation",
    variants := [("AA", ⟨"normal", "Normal MTHFR A1298 function", 0⟩), ("AC", ⟨"reduced", "MTHFR A1298C heterozygous - mild reduction", 1⟩), ("CA", ⟨"reduced", "MTHFR A1298C heterozygous - mild reduction", 1⟩), ("CC", ⟨"reduced", "MTHFR A1298C homozygous - moderate reduction in BH4 recycling", 2⟩), ("TT", ⟨"normal", "Normal MTHFR A1298 function (23andMe orientation)", 0⟩), ("TG", ⟨"reduced", "MTHFR A1298C heterozygous (23andMe orientation)", 1⟩), ("GT", ⟨"reduced", "MTHFR A1298C heterozygous (23andMe orientation)", 1⟩), ("GG", ⟨"reduced", "MTHFR A1298C homozygous (23andMe orientation)", 2⟩)] }

/-- Rule rs1805087 of `COMPREHENSIVE_SNPS`. -/
def rule_rs1805087 : SnpRule :=
  { gene := "MTR", category := "Methylation",
    variants := [("AA", ⟨"normal", "Normal methionine synthase function", 0⟩), ("AG", ⟨"reduced", "MTR A2756G heterozygous - reduced B12 utilization", 1⟩), ("GA", ⟨"reduced", "MTR A2756G heterozygous - reduced B12 utilization", 1⟩), ("GG", ⟨"significantly_reduced", "MTR A2756G homozygous - may need higher B12, check homocysteine", 2⟩)] }

/-- Rule rs1801394 of `COMPREHENSIVE_SNPS`. -/
def rule_rs1801394 : SnpRule :=
  { gene := "MTRR", category := "Methylation",
    variants := [("AA", ⟨"normal", "Normal MTRR function - efficient B12 recycling", 0⟩), ("AG", ⟨"reduced", "MTRR A66G heterozygous - reduced B12 regeneration", 1⟩), ("GA", ⟨"reduced", "MTRR A66G heterozygous - reduced B12 regeneration", 1⟩), ("GG", ⟨"significantly_reduced", "MTRR A66G homozygous - impaired B12 recycling, consider methylcobalamin", 2⟩)] }

/-- Rule rs234706 of `COMPREHENSIVE_SNPS`. -/
def rule_rs234706 : SnpRule :=
  { gene := "CBS", category := "Methylation",
    variants := [("GG", ⟨"normal", "Normal CBS function - standard homocysteine processing", 0⟩), ("GA", ⟨"upregulated", "CBS C699T heterozygous - may have faster transsulfuration", 1⟩), ("AG", ⟨"upregulated", "CBS C699T heterozygous - may have faster transsulfuration", 1⟩), ("AA", ⟨"upregulated", "CBS C699T homozygous - upregulated CBS, may deplete homocysteine/SAMe faster", 2⟩)] }

/-- Rule rs7946 of `COMPREHENSIVE_SNPS`. -/
def rule_rs7946 : SnpRule :=
  { gene := "PEMT", category := "Methylation",
    variants := [("CC", ⟨"normal", "Normal PEMT - adequate choline synthesis", 0⟩), ("CT", ⟨"reduced", "PEMT G5765A heterozygous - may need more dietary choline", 1⟩), ("TC", ⟨"reduced", "PEMT G5765A heterozygous - may need more dietary choline", 1⟩), ("TT", ⟨"significantly_reduced", "PEMT G5765A homozygous - higher choline requirements, especially for women", 2⟩)] }

/-- Rule rs1801280 of `COMPREHENSIVE_SNPS`. -/
def rule_rs1801280 : SnpRule :=
  { gene := "NAT2", category := "Detoxification",
    variants := [("TT", ⟨"fast", "Fast NAT2 acetylator", 0⟩), ("TC", ⟨"intermediate", "Intermediate NAT2 acetylator", 1⟩), ("CT", ⟨"intermediate", "Intermediate NAT2 acetylator", 1⟩), ("CC", ⟨"slow", "Slow NAT2 acetylator - increased drug/toxin sensitivity", 2⟩)] }

/-- Rule rs1799930 of `COMPREHENSIVE_SNPS`. -/
def rule_rs1799930 : SnpRule :=
  { gene := "NAT2", category := "Detoxification",
    variants := [("GG", ⟨"fast", "Fast acetylator at this locus", 0⟩), ("GA", ⟨"intermediate", "Intermediate acetylator", 1⟩), ("AG", ⟨"intermediate", "Intermediate acetylator", 1⟩), ("AA", ⟨"slow", "Slow acetylator at this locus", 2⟩)] }

/-- Rule rs1695 of `COMPREHENSIVE_SNPS`. -/
def rule_rs1695 : SnpRule :=
  { gene := "GSTP1", category := "Detoxification",
    variants := [("AA", ⟨"normal", "Normal GSTP1 - good glutathione conjugation", 0⟩), ("AG", ⟨"reduced", "GSTP1 Ile105Val heterozygous - reduced detox capacity", 1⟩), ("GA", ⟨"reduced", "GSTP1 Ile105Val heterozygous - reduced detox capacity", 1⟩), ("GG", ⟨"significantly_reduced", "GSTP1 Val/Val - reduced glutathione conjugation, may benefit from NAC/glutathione support", 2⟩)] }

/-- Rule rs1138272 of `COMPREHENSIVE_SNPS`. -/
def rule_rs1138272 : SnpRule :=
  { gene := "GSTP1", category := "Detoxification",
    variants := [("CC", ⟨"normal", "Normal GSTP1 Ala114 function", 0⟩), ("CT", ⟨"reduced", "GSTP1 Ala114Val heterozygous", 1⟩), ("TC", ⟨"reduced", "GSTP1 Ala114Val heterozygous", 1⟩), ("TT", ⟨"significantly_reduced", "GSTP1 Val/Val at 114 - further reduced activity", 2⟩)] }

/-- Rule rs4880 of `COMPREHENSIVE_SNPS`. -/
def rule_rs4880 : SnpRule :=
  { gene := "SOD2", category := "Detoxification",
    variants := [("AA", ⟨"high_activity", "High SOD2 activity (Ala/Ala) - efficient mitochondrial antioxidant", 1⟩), ("AG", ⟨"intermediate", "Intermediate SOD2 activity", 0⟩), ("GA", ⟨"intermediate", "Intermediate SOD2 activity", 0⟩), ("GG", ⟨"low_activity", "Lower SOD2 activity (Val/Val) - may benefit from antioxidant support", 2⟩)] }

/-- Rule rs4680 of `COMPREHENSIVE_SNPS`. -/
def rule_rs4680 : SnpRule :=
  { gene := "COMT", category := "Neurotransmitters",
    variants := [("GG", ⟨"fast", "Fast COMT (Val/Val) - clears dopamine quickly, better stress resilience, may need more stimulation", 2⟩), ("AG", ⟨"intermediate", "Intermediate COMT (Val/Met) - balanced dopamine clearance", 1⟩), ("GA", ⟨"intermediate", "Intermediate COMT (Val/Met) - balanced dopamine clearance", 1⟩), ("AA", ⟨"slow", "Slow COMT (Met/Met) - higher dopamine, better working memory but more stress-sensitive, stimulants hit harder", 3⟩)] }

/-- Rule rs4633 of `COMPREHENSIVE_SNPS`. -/
def rule_rs4633 : SnpRule :=
  { gene := "COMT", category := "Neurotransmitters",
    variants := [("CC", ⟨"fast", "Fast COMT haplotype marker", 1⟩), ("CT", ⟨"intermediate", "Intermediate COMT", 0⟩), ("TC", ⟨"intermediate", "Intermediate COMT", 0⟩), ("TT", ⟨"slow", "Slow COMT haplotype marker", 1⟩)] }

/-- Rule rs6265 of `COMPREHENSIVE_SNPS`. -/
def rule_rs6265 : SnpRule :=
  { gene := "BDNF", category := "Neurotransmitters",
    variants := [("CC", ⟨"normal", "Normal BDNF Val66 - standard neuroplasticity and memory", 0⟩), ("CT", ⟨"reduced", "BDNF Val66Met heterozygous - reduced activity-dependent BDNF secretion, exercise especially beneficial", 2⟩), ("TC", ⟨"reduced", "BDNF Val66Met heterozygous - reduced activity-dependent BDNF secretion, exercise especially beneficial", 2⟩), ("TT", ⟨"significantly_reduced", "BDNF Met/Met - reduced neuroplasticity, higher depression risk, exercise strongly recommended", 3⟩)] }

/-- Rule rs25531 of `COMPREHENSIVE_SNPS`. -/
def rule_rs25531 : SnpRule :=
  { gene := "SLC6A4", category := "Neurotransmitters",
    variants := [("AA", ⟨"low_expression", "Low serotonin transporter expression (La/La) - may be more responsive to SSRIs", 1⟩), ("AG", ⟨"intermediate", "Intermediate serotonin transporter", 0⟩), ("GA", ⟨"intermediate", "Intermediate serotonin transporter", 0⟩), ("GG", ⟨"high_expression", "Higher serotonin transporter expression - may need higher SSRI doses", 1⟩)] }

/-- Rule rs1800497 of `COMPREHENSIVE_SNPS`. -/
def rule_rs1800497 : SnpRule :=
  { gene := "ANKK1/DRD2", category := "Neurotransmitters",
    variants := [("CC", ⟨"normal", "Normal D2 receptor density", 0⟩), ("CT", ⟨"reduced", "Taq1A heterozygous - reduced D2 receptors, may seek more stimulation/rewards", 2⟩), ("TC", ⟨"reduced", "Taq1A heterozygous - reduced D2 receptors, may seek more stimulation/rewards", 2⟩), ("TT", ⟨"significantly_reduced", "Taq1A homozygous - ~40% fewer D2 receptors, higher addiction susceptibility", 3⟩)] }

/-- Rule rs1799971 of `COMPREHENSIVE_SNPS`. -/
def rule_rs1799971 : SnpRule :=
  { gene := "OPRM1", category := "Neurotransmitters",
    variants := [("AA", ⟨"normal", "Normal mu-opioid receptor function", 0⟩), ("AG", ⟨"altered", "OPRM1 A118G heterozygous - altered opioid/alcohol response", 2⟩), ("GA", ⟨"altered", "OPRM1 A118G heterozygous - altered opioid/alcohol response", 2⟩), ("GG", ⟨"significantly_altered", "OPRM1 G/G - reduced opioid sensitivity, may need higher doses for pain, altered alcohol reward", 3⟩)] }

/-- Rule rs5751876 of `COMPREHENSIVE_SNPS`. -/
def rule_rs5751876 : SnpRule :=
  { gene := "ADORA2A", category := "Caffeine Response",
    variants := [("CC", ⟨"lower_sensitivity", "Lower caffeine sensitivity - less anxiety from caffeine", 1⟩), ("CT", ⟨"normal", "Normal caffeine sensitivity", 0⟩), ("TC", ⟨"normal", "Normal caffeine sensitivity", 0⟩), ("TT", ⟨"high_sensitivity", "High caffeine sensitivity - more prone to caffeine anxiety and sleep disruption", 2⟩)] }

/-- Rule rs2298383 of `COMPREHENSIVE_SNPS`. -/
def rule_rs2298383 : SnpRule :=
  { gene := "ADORA2A", category := "Caffeine Response",
    variants := [("CC", ⟨"normal", "Normal anxiety response to caffeine", 0⟩), ("CT", ⟨"intermediate", "Intermediate caffeine-anxiety response", 1⟩), ("TC", ⟨"intermediate", "Intermediate caffeine-anxiety response", 1⟩), ("TT", ⟨"anxiety_prone", "Increased anxiety response to caffeine - consider lower doses or alternatives", 2⟩)] }

/-- Rule rs73598374 of `COMPREHENSIVE_SNPS`. -/
def rule_rs73598374 : SnpRule :=
  { gene := "ADA", category := "Caffeine Response",
    variants := [("CC", ⟨"normal", "Normal adenosine deaminase - standard sleep pressure", 0⟩), ("CT", ⟨"reduced", "ADA G22A heterozygous - slower adenosine clearance, deeper sleep need", 1⟩), ("TC", ⟨"reduced", "ADA G22A heterozygous - slower adenosine clearance, deeper sleep need", 1⟩), ("TT", ⟨"significantly_reduced", "ADA G22A homozygous - high sleep pressure, may need more sleep", 2⟩)] }

/-- Rule rs1801260 of `COMPREHENSIVE_SNPS`. -/
def rule_rs1801260 : SnpRule :=
  { gene := "CLOCK", category := "Sleep/Circadian",
    variants := [("TT", ⟨"normal", "Normal CLOCK gene - standard circadian timing", 0⟩), ("TC", ⟨"evening_tendency", "CLOCK 3111C heterozygous - slight evening preference", 1⟩), ("CT", ⟨"evening_tendency", "CLOCK 3111C heterozygous - slight evening preference", 1⟩), ("CC", ⟨"evening_type", "CLOCK 3111C homozygous - evening chronotype, may have delayed sleep phase", 2⟩)] }

/-- Rule rs57875989 of `COMPREHENSIVE_SNPS`. -/
def rule_rs57875989 : SnpRule :=
  { gene := "PER2", category := "Sleep/Circadian",
    variants := [("CC", ⟨"normal", "Normal PER2 - standard circadian period", 0⟩), ("CG", ⟨"morning_tendency", "PER2 variant - tendency toward morning chronotype", 1⟩), ("GC", ⟨"morning_tendency", "PER2 variant - tendency toward morning chronotype", 1⟩), ("GG", ⟨"morning_type", "PER2 variant homozygous - strong morning chronotype", 2⟩)] }

/-- Rule rs12649507 of `COMPREHENSIVE_SNPS`. -/
def rule_rs12649507 : SnpRule :=
  { gene := "ARNTL", category := "Sleep/Circadian",
    variants := [("AA", ⟨"normal", "Normal BMAL1 function", 0⟩), ("AG", ⟨"altered", "BMAL1 variant - may affect circadian amplitude", 1⟩), ("GA", ⟨"altered", "BMAL1 variant - may affect circadian amplitude", 1⟩), ("GG", ⟨"significantly_altered", "BMAL1 variant homozygous - may have weaker circadian rhythm", 2⟩)] }

/-- Rule rs28532698 of `COMPREHENSIVE_SNPS`. -/
def rule_rs28532698 : SnpRule :=
  { gene := "MTNR1B", category := "Sleep/Circadian",
    variants := [("CC", ⟨"normal", "Normal melatonin receptor", 0⟩), ("CT", ⟨"altered", "MTNR1B variant - altered melatonin signaling, higher T2D risk with late eating", 2⟩), ("TC", ⟨"altered", "MTNR1B variant - altered melatonin signaling, higher T2D risk with late eating", 2⟩), ("TT", ⟨"significantly_altered", "MTNR1B variant homozygous - avoid late-night eating, higher diabetes risk", 3⟩)] }

/-- Rule rs1815739 of `COMPREHENSIVE_SNPS`. -/
def rule_rs1815739 : SnpRule :=
  { gene := "ACTN3", category := "Fitness",
    variants := [("CC", ⟨"power", "ACTN3 R/R (power type) - fast-twitch muscle fiber advantage, suited for sprinting/power sports", 2⟩), ("CT", ⟨"mixed", "ACTN3 R/X (mixed) - balanced muscle fiber composition", 1⟩), ("TC", ⟨"mixed", "ACTN3 R/X (mixed) - balanced muscle fiber composition", 1⟩), ("TT", ⟨"endurance", "ACTN3 X/X (endurance type) - no alpha-actinin-3, better suited for endurance sports", 2⟩)] }

/-- Rule rs4994 of `COMPREHENSIVE_SNPS`. -/
def rule_rs4994 : SnpRule :=
  { gene := "ADRB3", category := "Fitness",
    variants := [("CC", ⟨"normal", "Normal beta-3 adrenergic receptor - standard fat mobilization", 0⟩), ("CT", ⟨"reduced", "ADRB3 Trp64Arg heterozygous - reduced fat mobilization, may resist weight loss", 2⟩), ("TC", ⟨"reduced", "ADRB3 Trp64Arg heterozygous - reduced fat mobilization, may resist weight loss", 2⟩), ("TT", ⟨"significantly_reduced", "ADRB3 Arg/Arg - lower metabolic rate, weight loss more difficult", 3⟩)] }

/-- Rule rs1042713 of `COMPREHENSIVE_SNPS`. -/
def rule_rs1042713 : SnpRule :=
  { gene := "ADRB2", category := "Fitness",
    variants := [("GG", ⟨"gly16", "ADRB2 Gly16 - enhanced lipolysis response to exercise", 1⟩), ("GA", ⟨"heterozygous", "ADRB2 Gly16Arg heterozygous - intermediate response", 0⟩), ("AG", ⟨"heterozygous", "ADRB2 Gly16Arg heterozygous - intermediate response", 0⟩), ("AA", ⟨"arg16", "ADRB2 Arg16 - reduced exercise-induced lipolysis", 1⟩)] }

/-- Rule rs8192678 of `COMPREHENSIVE_SNPS`. -/
def rule_rs8192678 : SnpRule :=
  { gene := "PPARGC1A", category := "Fitness",
    variants := [("CC", ⟨"normal", "Normal PGC-1alpha - standard mitochondrial biogenesis", 0⟩), ("CT", ⟨"enhanced", "PPARGC1A Gly482Ser heterozygous - may have enhanced endurance adaptation", 1⟩), ("TC", ⟨"enhanced", "PPARGC1A Gly482Ser heterozygous - may have enhanced endurance adaptation", 1⟩), ("TT", ⟨"altered", "PPARGC1A Ser/Ser - altered mitochondrial response, may need more training volume", 2⟩)] }

/-- Rule rs4253778 of `COMPREHENSIVE_SNPS`. -/
def rule_rs4253778 : SnpRule :=
  { gene := "PPARA", category := "Fitness",
    variants := [("GG", ⟨"normal", "Normal PPAR-alpha - standard fat oxidation", 0⟩), ("GC", ⟨"enhanced", "PPARA intron 7 C allele - enhanced fat oxidation capacity", 1⟩), ("CG", ⟨"enhanced", "PPARA intron 7 C allele - enhanced fat oxidation capacity", 1⟩), ("CC", ⟨"highly_enhanced", "PPARA C/C - superior fat oxidation, endurance advantage", 2⟩)] }

/-- Rule rs1799752 of `COMPREHENSIVE_SNPS`. -/
def rule_rs1799752 : SnpRule :=
  { gene := "ACE", category := "Fitness",
    variants := [("DD", ⟨"power", "ACE D/D - higher ACE activity, power/strength advantage", 2⟩), ("DI", ⟨"mixed", "ACE D/I - balanced ACE activity", 1⟩), ("ID", ⟨"mixed", "ACE I/D - balanced ACE activity", 1⟩), ("II", ⟨"endurance", "ACE I/I - lower ACE activity, endurance advantage, better altitude adaptation", 2⟩), ("GG", ⟨"power", "ACE D/D equivalent - power advantage", 2⟩), ("GT", ⟨"mixed", "ACE heterozygous", 1⟩), ("TG", ⟨"mixed", "ACE heterozygous", 1⟩), ("TT", ⟨"endurance", "ACE I/I equivalent - endurance advantage", 2⟩)] }

/-- Rule rs7181866 of `COMPREHENSIVE_SNPS`. -/
def rule_rs7181866 : SnpRule :=
  { gene := "COL5A1", category := "Fitness",
    variants := [("CC", ⟨"flexible", "COL5A1 C/C - more flexible tendons, lower injury risk", 1⟩), ("CT", ⟨"intermediate", "COL5A1 heterozygous - intermediate tendon properties", 0⟩), ("TC", ⟨"intermediate", "COL5A1 heterozygous - intermediate tendon properties", 0⟩), ("TT", ⟨"stiff", "COL5A1 T/T - stiffer tendons, higher injury risk, more warm-up needed", 2⟩)] }

/-- Rule rs1800012 of `COMPREHENSIVE_SNPS`. -/
def rule_rs1800012 : SnpRule :=
  { gene := "COL1A1", category := "Fitness",
    variants := [("GG", ⟨"normal", "Normal collagen type I - standard bone/tendon strength", 0⟩), ("GT", ⟨"reduced", "COL1A1 Sp1 heterozygous - slightly reduced collagen, watch for overuse injuries", 1⟩), ("TG", ⟨"reduced", "COL1A1 Sp1 heterozygous - slightly reduced collagen, watch for overuse injuries", 1⟩), ("TT", ⟨"significantly_reduced", "COL1A1 Sp1 T/T - reduced collagen, higher fracture/injury risk", 2⟩)] }

/-- Rule rs9939609 of `COMPREHENSIVE_SNPS`. -/
def rule_rs9939609 : SnpRule :=
  { gene := "FTO", category := "Nutrition",
    variants := [("TT", ⟨"normal", "Normal FTO - standard obesity risk", 0⟩), ("TA", ⟨"increased", "FTO risk allele heterozygous - 1.3x obesity risk, may benefit from high protein", 1⟩), ("AT", ⟨"increased", "FTO risk allele heterozygous - 1.3x obesity risk, may benefit from high protein", 1⟩), ("AA", ⟨"elevated", "FTO A/A - 1.7x obesity risk, responds well to exercise and high-protein diet", 2⟩)] }

/-- Rule rs1801282 of `COMPREHENSIVE_SNPS`. -/
def rule_rs1801282 : SnpRule :=
  { gene := "PPARG", category := "Nutrition",
    variants := [("CC", ⟨"normal", "Normal PPAR-gamma - standard insulin sensitivity", 0⟩), ("CG", ⟨"protective", "PPARG Pro12Ala heterozygous - improved insulin sensitivity, lower T2D risk", 1⟩), ("GC", ⟨"protective", "PPARG Pro12Ala heterozygous - improved insulin sensitivity, lower T2D risk", 1⟩), ("GG", ⟨"highly_protective", "PPARG Ala/Ala - enhanced insulin sensitivity", 2⟩)] }

/-- Rule rs7903146 of `COMPREHENSIVE_SNPS`. -/
def rule_rs7903146 : SnpRule :=
  { gene := "TCF7L2", category := "Nutrition",
    variants := [("CC", ⟨"normal", "Normal TCF7L2 - standard diabetes risk", 0⟩), ("CT", ⟨"increased", "TCF7L2 risk allele heterozygous - 1.4x T2D risk, carb restriction helpful", 2⟩), ("TC", ⟨"increased", "TCF7L2 risk allele heterozygous - 1.4x T2D risk, carb restriction helpful", 2⟩), ("TT", ⟨"elevated", "TCF7L2 T/T - 2x T2D risk, low-glycemic diet strongly recommended", 3⟩)] }

/-- Rule rs5082 of `COMPREHENSIVE_SNPS`. -/
def rule_rs5082 : SnpRule :=
  { gene := "APOA2", category := "Nutrition",
    variants := [("GG", ⟨"normal", "Normal APOA2 - standard saturated fat response", 0⟩), ("GA", ⟨"intermediate", "APOA2 -265T>C heterozygous - intermediate sat fat sensitivity", 1⟩), ("AG", ⟨"intermediate", "APOA2 -265T>C heterozygous - intermediate sat fat sensitivity", 1⟩), ("AA", ⟨"sensitive", "APOA2 C/C - saturated fat intake strongly linked to obesity, limit sat fat", 2⟩)] }

/-- Rule rs174547 of `COMPREHENSIVE_SNPS`. -/
def rule_rs174547 : SnpRule :=
  { gene := "FADS1", category := "Nutrition",
    variants := [("TT", ⟨"high_conversion", "FADS1 T/T - efficient omega-3/6 conversion, plant sources adequate", 1⟩), ("TC", ⟨"intermediate", "FADS1 heterozygous - moderate conversion efficiency", 0⟩), ("CT", ⟨"intermediate", "FADS1 heterozygous - moderate conversion efficiency", 0⟩), ("CC", ⟨"low_conversion", "FADS1 C/C - poor ALA to EPA/DHA conversion, direct fish oil/algae preferred", 2⟩)] }

/-- Rule rs4988235 of `COMPREHENSIVE_SNPS`. -/
def rule_rs4988235 : SnpRule :=
  { gene := "MCM6/LCT", category := "Nutrition",
    variants := [("AA", ⟨"lactose_intolerant", "Lactase non-persistence - lactose intolerance in adulthood", 2⟩), ("AG", ⟨"tolerant", "Lactase persistence heterozygous - likely lactose tolerant", 0⟩), ("GA", ⟨"tolerant", "Lactase persistence heterozygous - likely lactose tolerant", 0⟩), ("GG", ⟨"tolerant", "Lactase persistence - maintains lactase production, lactose tolerant", 0⟩)] }

/-- Rule rs2282679 of `COMPREHENSIVE_SNPS`. -/
def rule_rs2282679 : SnpRule :=
  { gene := "GC", category := "Nutrition",
    variants := [("GG", ⟨"normal", "Normal vitamin D binding protein - adequate vitamin D transport", 0⟩), ("GT", ⟨"reduced", "GC variant heterozygous - lower vitamin D levels common", 1⟩), ("TG", ⟨"reduced", "GC variant heterozygous - lower vitamin D levels common", 1⟩), ("TT", ⟨"low", "GC T/T - genetically low vitamin D, supplementation often needed especially in northern latitudes", 2⟩)] }

/-- Rule rs12934922 of `COMPREHENSIVE_SNPS`. -/
def rule_rs12934922 : SnpRule :=
  { gene := "BCMO1", category := "Nutrition",
    variants := [("AA", ⟨"normal", "Normal beta-carotene conversion to vitamin A", 0⟩), ("AT", ⟨"reduced", "BCMO1 A379V heterozygous - ~30% reduced conversion, consider preformed vitamin A", 1⟩), ("TA", ⟨"reduced", "BCMO1 A379V heterozygous - ~30% reduced conversion, consider preformed vitamin A", 1⟩), ("TT", ⟨"significantly_reduced", "BCMO1 T/T - ~70% reduced beta-carotene conversion, need preformed vitamin A sources", 2⟩)] }

/-- Rule rs602662 of `COMPREHENSIVE_SNPS`. -/
def rule_rs602662 : SnpRule :=
  { gene := "FUT2", category := "Nutrition",
    variants := [("GG", ⟨"secretor", "Secretor status - normal B12 absorption, standard gut microbiome", 0⟩), ("GA", ⟨"secretor", "Secretor heterozygous - normal B12 absorption", 0⟩), ("AG", ⟨"secretor", "Secretor heterozygous - normal B12 absorption", 0⟩), ("AA", ⟨"non_secretor", "Non-secretor - may have lower B12 levels, different gut microbiome, consider B12 monitoring", 2⟩)] }

/-- Rule rs429358 of `COMPREHENSIVE_SNPS`. -/
def rule_rs429358 : SnpRule :=
  { gene := "APOE", category := "Cardiovascular",
    variants := [("TT", ⟨"e2_or_e3", "APOE not e4 at this position", 0⟩), ("TC", ⟨"e4_carrier", "APOE e4 carrier (one copy) - increased CVD and Alzheimer\x27s risk", 3⟩), ("CT", ⟨"e4_carrier", "APOE e4 carrier (one copy) - increased CVD and Alzheimer\x27s risk", 3⟩), ("CC", ⟨"e4_homozygous", "APOE e4/e4 - significantly elevated Alzheimer\x27s risk (10-15x)", 5⟩)] }

/-- Rule rs7412 of `COMPREHENSIVE_SNPS`. -/
def rule_rs7412 : SnpRule :=
  { gene := "APOE", category := "Cardiovascular",
    variants := [("CC", ⟨"e3_or_e4", "Not APOE e2 at this position", 0⟩), ("CT", ⟨"e2_carrier", "APOE e2 carrier - may be protective against Alzheimer\x27s", 1⟩), ("TC", ⟨"e2_carrier", "APOE e2 carrier - may be protective against Alzheimer\x27s", 1⟩), ("TT", ⟨"e2_homozygous", "APOE e2/e2 - protective vs Alzheimer\x27s but watch Type III hyperlipoproteinemia", 2⟩)] }

/-- Rule rs6025 of `COMPREHENSIVE_SNPS`. -/
def rule_rs6025 : SnpRule :=
  { gene := "F5", category := "Cardiovascular",
    variants := [("CC", ⟨"normal", "No Factor V Leiden - normal clotting", 0⟩), ("CT", ⟨"carrier", "Factor V Leiden heterozygous - 5-10x DVT risk, avoid estrogen contraceptives", 4⟩), ("TC", ⟨"carrier", "Factor V Leiden heterozygous - 5-10x DVT risk, avoid estrogen contraceptives", 4⟩), ("TT", ⟨"homozygous", "Factor V Leiden homozygous - 50-100x DVT risk", 5⟩)] }

/-- Rule rs1799963 of `COMPREHENSIVE_SNPS`. -/
def rule_rs1799963 : SnpRule :=
  { gene := "F2", category := "Cardiovascular",
    variants := [("GG", ⟨"normal", "No prothrombin mutation - normal clotting", 0⟩), ("GA", ⟨"carrier", "Prothrombin G20210A heterozygous - 3x DVT risk", 3⟩), ("AG", ⟨"carrier", "Prothrombin G20210A heterozygous - 3x DVT risk", 3⟩), ("AA", ⟨"homozygous", "Prothrombin G20210A homozygous - significantly elevated clot risk", 4⟩)] }

/-- Rule rs5186 of `COMPREHENSIVE_SNPS`. -/
def rule_rs5186 : SnpRule :=
  { gene := "AGTR1", category := "Cardiovascular",
    variants := [("AA", ⟨"normal", "Normal angiotensin II receptor - standard blood pressure response", 0⟩), ("AC", ⟨"increased", "AGTR1 A1166C heterozygous - increased hypertension risk", 2⟩), ("CA", ⟨"increased", "AGTR1 A1166C heterozygous - increased hypertension risk", 2⟩), ("CC", ⟨"elevated", "AGTR1 C/C - elevated hypertension risk, salt-sensitive, responds well to ARBs", 3⟩)] }

/-- Rule rs699 of `COMPREHENSIVE_SNPS`. -/
def rule_rs699 : SnpRule :=
  { gene := "AGT", category := "Cardiovascular",
    variants := [("AA", ⟨"normal", "Normal angiotensinogen - standard blood pressure", 0⟩), ("AG", ⟨"increased", "AGT M235T heterozygous - ~20% higher AGT, slightly elevated BP risk", 1⟩), ("GA", ⟨"increased", "AGT M235T heterozygous - ~20% higher AGT, slightly elevated BP risk", 1⟩), ("GG", ⟨"elevated", "AGT T/T - ~40% higher AGT levels, elevated hypertension risk, salt restriction helpful", 2⟩)] }

/-- Rule rs4343 of `COMPREHENSIVE_SNPS`. -/
def rule_rs4343 : SnpRule :=
  { gene := "ACE", category := "Cardiovascular",
    variants := [("AA", ⟨"low", "Lower ACE activity - better endurance, lower BP tendency", 1⟩), ("AG", ⟨"intermediate", "Intermediate ACE activity", 0⟩), ("GA", ⟨"intermediate", "Intermediate ACE activity", 0⟩), ("GG", ⟨"high", "Higher ACE activity - power advantage but higher BP risk, responds well to ACE inhibitors", 2⟩)] }

/-- Rule rs5443 of `COMPREHENSIVE_SNPS`. -/
def rule_rs5443 : SnpRule :=
  { gene := "GNB3", category := "Cardiovascular",
    variants := [("CC", ⟨"normal", "Normal G-protein signaling", 0⟩), ("CT", ⟨"increased", "GNB3 C825T heterozygous - increased hypertension and obesity risk", 1⟩), ("TC", ⟨"increased", "GNB3 C825T heterozygous - increased hypertension and obesity risk", 1⟩), ("TT", ⟨"elevated", "GNB3 T/T - elevated hypertension risk, responds well to diuretics", 2⟩)] }

/-- Rule rs1801253 of `COMPREHENSIVE_SNPS`. -/
def rule_rs1801253 : SnpRule :=
  { gene := "ADRB1", category := "Cardiovascular",
    variants := [("CC", ⟨"arg389", "ADRB1 Arg389 - enhanced beta-blocker response", 1⟩), ("CG", ⟨"heterozygous", "ADRB1 Arg389Gly heterozygous - intermediate beta-blocker response", 0⟩), ("GC", ⟨"heterozygous", "ADRB1 Arg389Gly heterozygous - intermediate beta-blocker response", 0⟩), ("GG", ⟨"gly389", "ADRB1 Gly389 - reduced beta-blocker efficacy, may need dose adjustment", 2⟩)] }

/-- Rule rs1800629 of `COMPREHENSIVE_SNPS`. -/
def rule_rs1800629 : SnpRule :=
  { gene := "TNF", category := "Inflammation",
    variants := [("GG", ⟨"normal", "Normal TNF-alpha levels", 0⟩), ("GA", ⟨"increased", "TNF-308 G>A heterozygous - higher TNF-alpha, increased inflammation", 2⟩), ("AG", ⟨"increased", "TNF-308 G>A heterozygous - higher TNF-alpha, increased inflammation", 2⟩), ("AA", ⟨"elevated", "TNF-308 A/A - significantly elevated TNF-alpha, chronic inflammation risk", 3⟩)] }

/-- Rule rs1800795 of `COMPREHENSIVE_SNPS`. -/
def rule_rs1800795 : SnpRule :=
  { gene := "IL6", category := "Inflammation",
    variants := [("GG", ⟨"high", "IL-6 -174 G/G - higher baseline IL-6, more inflammatory response", 2⟩), ("GC", ⟨"intermediate", "IL-6 -174 heterozygous - intermediate IL-6 levels", 1⟩), ("CG", ⟨"intermediate", "IL-6 -174 heterozygous - intermediate IL-6 levels", 1⟩), ("CC", ⟨"low", "IL-6 -174 C/C - lower baseline inflammation", 0⟩)] }

/-- Rule rs1800562 of `COMPREHENSIVE_SNPS`. -/
def rule_rs1800562 : SnpRule :=
  { gene := "HFE", category := "Iron Metabolism",
    variants := [("GG", ⟨"normal", "No C282Y HFE mutation - normal iron regulation", 0⟩), ("GA", ⟨"carrier", "HFE C282Y carrier - monitor iron levels periodically", 2⟩), ("AG", ⟨"carrier", "HFE C282Y carrier - monitor iron levels periodically", 2⟩), ("AA", ⟨"at_risk", "HFE C282Y homozygous - hereditary hemochromatosis risk, regular iron monitoring essential", 4⟩)] }

/-- Rule rs1799945 of `COMPREHENSIVE_SNPS`. -/
def rule_rs1799945 : SnpRule :=
  { gene := "HFE", category := "Iron Metabolism",
    variants := [("CC", ⟨"normal", "No H63D HFE mutation", 0⟩), ("CG", ⟨"carrier", "HFE H63D carrier - mild iron accumulation possible", 1⟩), ("GC", ⟨"carrier", "HFE H63D carrier - mild iron accumulation possible", 1⟩), ("GG", ⟨"homozygous", "HFE H63D homozygous - elevated iron possible, especially with C282Y", 2⟩)] }

/-- Rule rs2187668 of `COMPREHENSIVE_SNPS`. -/
def rule_rs2187668 : SnpRule :=
  { gene := "HLA-DQA1", category := "Autoimmune",
    variants := [("CC", ⟨"low_risk", "Lower celiac disease risk", 0⟩), ("CT", ⟨"increased_risk", "HLA-DQ2.5 carrier - increased celiac disease risk", 2⟩), ("TC", ⟨"increased_risk", "HLA-DQ2.5 carrier - increased celiac disease risk", 2⟩), ("TT", ⟨"high_risk", "HLA-DQ2.5 homozygous - highest celiac disease risk", 3⟩)] }

/-- Rule rs7574865 of `COMPREHENSIVE_SNPS`. -/
def rule_rs7574865 : SnpRule :=
  { gene := "STAT4", category := "Autoimmune",
    variants := [("GG", ⟨"normal", "Normal autoimmune risk at this locus", 0⟩), ("GT", ⟨"increased", "STAT4 risk allele - increased RA, lupus risk", 1⟩), ("TG", ⟨"increased", "STAT4 risk allele - increased RA, lupus risk", 1⟩), ("TT", ⟨"elevated", "STAT4 T/T - elevated autoimmune disease risk", 2⟩)] }

/-- Rule rs2476601 of `COMPREHENSIVE_SNPS`. -/
def rule_rs2476601 : SnpRule :=
  { gene := "PTPN22", category := "Autoimmune",
    variants := [("GG", ⟨"normal", "Normal autoimmune risk", 0⟩), ("GA", ⟨"increased", "PTPN22 R620W heterozygous - increased T1D, RA, thyroid autoimmunity risk", 2⟩), ("AG", ⟨"increased", "PTPN22 R620W heterozygous - increased T1D, RA, thyroid autoimmunity risk", 2⟩), ("AA", ⟨"elevated", "PTPN22 W/W - significantly elevated autoimmune risk", 3⟩)] }

/-- Rule rs1805007 of `COMPREHENSIVE_SNPS`. -/
def rule_rs1805007 : SnpRule :=
  { gene := "MC1R", category := "Skin",
    variants := [("CC", ⟨"normal", "Normal MC1R - standard sun sensitivity", 0⟩), ("CT", ⟨"carrier", "MC1R R151C carrier - increased sun sensitivity, freckling, skin cancer risk", 2⟩), ("TC", ⟨"carrier", "MC1R R151C carrier - increased sun sensitivity, freckling, skin cancer risk", 2⟩), ("TT", ⟨"high_risk", "MC1R R151C homozygous - red hair phenotype, very high sun sensitivity", 3⟩)] }

/-- Rule rs1805008 of `COMPREHENSIVE_SNPS`. -/
def rule_rs1805008 : SnpRule :=
  { gene := "MC1R", category := "Skin",
    variants := [("CC", ⟨"normal", "Normal MC1R R160W", 0⟩), ("CT", ⟨"carrier", "MC1R R160W carrier - increased sun sensitivity", 2⟩), ("TC", ⟨"carrier", "MC1R R160W carrier - increased sun sensitivity", 2⟩), ("TT", ⟨"high_risk", "MC1R R160W homozygous - high sun/skin cancer risk", 3⟩)] }

/-- Rule rs12203592 of `COMPREHENSIVE_SNPS`. -/
def rule_rs12203592 : SnpRule :=
  { gene := "IRF4", category := "Skin",
    variants := [("CC", ⟨"normal", "Normal pigmentation regulation", 0⟩), ("CT", ⟨"lighter", "IRF4 variant - tendency toward lighter skin, increased sun sensitivity", 1⟩), ("TC", ⟨"lighter", "IRF4 variant - tendency toward lighter skin, increased sun sensitivity", 1⟩), ("TT", ⟨"very_light", "IRF4 T/T - very light skin, high sun sensitivity, extra sun protection needed", 2⟩)] }

/-- Rule rs2228479 of `COMPREHENSIVE_SNPS`. -/
def rule_rs2228479 : SnpRule :=
  { gene := "MC1R", category := "Skin",
    variants := [("AA", ⟨"normal", "Normal MC1R Val92Met", 0⟩), ("AG", ⟨"variant", "MC1R V92M heterozygous - slightly increased skin aging risk", 1⟩), ("GA", ⟨"variant", "MC1R V92M heterozygous - slightly increased skin aging risk", 1⟩), ("GG", ⟨"accelerated", "MC1R V92M homozygous - may show accelerated skin aging", 2⟩)] }

/-- Rule rs2802292 of `COMPREHENSIVE_SNPS`. -/
def rule_rs2802292 : SnpRule :=
  { gene := "FOXO3", category := "Longevity",
    variants := [("TT", ⟨"normal", "Normal FOXO3 - standard longevity", 0⟩), ("TG", ⟨"favorable", "FOXO3 longevity variant heterozygous - associated with increased lifespan", 1⟩), ("GT", ⟨"favorable", "FOXO3 longevity variant heterozygous - associated with increased lifespan", 1⟩), ("GG", ⟨"highly_favorable", "FOXO3 G/G - strongly associated with longevity in multiple populations", 2⟩)] }

/-- Rule rs1042522 of `COMPREHENSIVE_SNPS`. -/
def rule_rs1042522 : SnpRule :=
  { gene := "TP53", category := "Longevity",
    variants := [("GG", ⟨"pro72", "TP53 Pro72 - more efficient apoptosis, may be protective against cancer", 1⟩), ("GC", ⟨"heterozygous", "TP53 Pro72Arg heterozygous - balanced", 0⟩), ("CG", ⟨"heterozygous", "TP53 Pro72Arg heterozygous - balanced", 0⟩), ("CC", ⟨"arg72", "TP53 Arg72 - less efficient apoptosis", 1⟩)] }

/-- Rule rs2542052 of `COMPREHENSIVE_SNPS`. -/
def rule_rs2542052 : SnpRule :=
  { gene := "CETP", category := "Longevity",
    variants := [("CC", ⟨"normal", "Normal CETP activity - standard HDL metabolism", 0⟩), ("CA", ⟨"favorable", "CETP I405V heterozygous - higher HDL, longevity association", 1⟩), ("AC", ⟨"favorable", "CETP I405V heterozygous - higher HDL, longevity association", 1⟩), ("AA", ⟨"highly_favorable", "CETP V/V - significantly higher HDL, associated with longevity", 2⟩)] }

/-- Rule rs28929474 of `COMPREHENSIVE_SNPS`. -/
def rule_rs28929474 : SnpRule :=
  { gene := "SERPINA1", category := "Respiratory",
    variants := [("CC", ⟨"normal", "Normal alpha-1 antitrypsin", 0⟩), ("CT", ⟨"carrier", "Alpha-1 antitrypsin Pi*Z carrier - avoid smoking, monitor lung function", 3⟩), ("TC", ⟨"carrier", "Alpha-1 antitrypsin Pi*Z carrier - avoid smoking, monitor lung function", 3⟩), ("TT", ⟨"deficient", "Alpha-1 antitrypsin deficiency (Pi*ZZ) - high COPD/liver disease risk", 5⟩)] }

/-- Rule rs671 of `COMPREHENSIVE_SNPS`. -/
def rule_rs671 : SnpRule :=
  { gene := "ALDH2", category := "Alcohol",
    variants := [("GG", ⟨"normal", "Normal ALDH2 - efficient alcohol metabolism", 0⟩), ("GA", ⟨"reduced", "ALDH2*2 heterozygous - alcohol flush, increased esophageal cancer risk with drinking", 3⟩), ("AG", ⟨"reduced", "ALDH2*2 heterozygous - alcohol flush, increased esophageal cancer risk with drinking", 3⟩), ("AA", ⟨"deficient", "ALDH2*2 homozygous - severe alcohol intolerance, avoid alcohol", 4⟩)] }

/-- Rule rs1229984 of `COMPREHENSIVE_SNPS`. -/
def rule_rs1229984 : SnpRule :=
  { gene := "ADH1B", category := "Alcohol",
    variants := [("CC", ⟨"slow", "Slower alcohol metabolism - alcohol effects last longer", 1⟩), ("CT", ⟨"intermediate", "Intermediate alcohol metabolism", 0⟩), ("TC", ⟨"intermediate", "Intermediate alcohol metabolism", 0⟩), ("TT", ⟨"fast", "Fast alcohol metabolism - protective against alcoholism", 1⟩)] }

/-- The curated rule table, in source order. -/
def COMPREHENSIVE_SNPS : List (String × SnpRule) :=
  [ ("rs762551", rule_rs762551),
    ("rs4244285", rule_rs4244285),
    ("rs12248560", rule_rs12248560),
    ("rs1799853", rule_rs1799853),
    ("rs1057910", rule_rs1057910),
    ("rs9923231", rule_rs9923231),
    ("rs4149056", rule_rs4149056),
    ("rs3892097", rule_rs3892097),
    ("rs776746", rule_rs776746),
    ("rs3918290", rule_rs3918290),
    ("rs1800460", rule_rs1800460),
    ("rs2395029", rule_rs2395029),
    ("rs1801133", rule_rs1801133),
    ("rs1801131", rule_rs1801131),
    ("rs1805087", rule_rs1805087),
    ("rs1801394", rule_rs1801394),
    ("rs234706", rule_rs234706),
    ("rs7946", rule_rs7946),
    ("rs1801280", rule_rs1801280),
    ("rs1799930", rule_rs1799930),
    ("rs1695", rule_rs1695),
    ("rs1138272", rule_rs1138272),
    ("rs4880", rule_rs4880),
    ("rs4680", rule_rs4680),
    ("rs4633", rule_rs4633),
    ("rs6265", rule_rs6265),
    ("rs25531", rule_rs25531),
    ("rs1800497", rule_rs1800497),
    ("rs1799971", rule_rs1799971),
    ("rs5751876", rule_rs5751876),
    ("rs2298383", rule_rs2298383),
    ("rs73598374", rule_rs73598374),
    ("rs1801260", rule_rs1801260),
    ("rs57875989", rule_rs57875989),
    ("rs12649507", rule_rs12649507),
    ("rs28532698", rule_rs28532698),
    ("rs1815739", rule_rs1815739),
    ("rs4994", rule_rs4994),
    ("rs1042713", rule_rs1042713),
    ("rs8192678", rule_rs8192678),
    ("rs4253778", rule_rs4253778),
    ("rs1799752", rule_rs1799752),
    ("rs7181866", rule_rs7181866),
    ("rs1800012", rule_rs1800012),
    ("rs9939609", rule_rs9939609),
    ("rs1801282", rule_rs1801282),
    ("rs7903146", rule_rs7903146),
    ("rs5082", rule_rs5082),
    ("rs174547", rule_rs174547),
    ("rs4988235", rule_rs4988235),
    ("rs2282679", rule_rs2282679),
    ("rs12934922", rule_rs12934922),
    ("rs602662", rule_rs602662),
    ("rs429358", rule_rs429358),
    ("rs7412", rule_rs7412),
    ("rs6025", rule_rs6025),
    ("rs1799963", rule_rs1799963),
    ("rs5186", rule_rs5186),
    ("rs699", rule_rs699),
    ("rs4343", rule_rs4343),
    ("rs5443", rule_rs5443),
    ("rs1801253", rule_rs1801253),
    ("rs1800629", rule_rs1800629),
    ("rs1800795", rule_rs1800795),
    ("rs1800562", rule_rs1800562),
    ("rs1799945", rule_rs1799945),
    ("rs2187668", rule_rs2187668),
    ("rs7574865", rule_rs7574865),
    ("rs2476601", rule_rs2476601),
    ("rs1805007", rule_rs1805007),
    ("rs1805008", rule_rs1805008),
    ("rs12203592", rule_rs12203592),
    ("rs2228479", rule_rs2228479),
    ("rs2802292", rule_rs2802292),
    ("rs1042522", rule_rs1042522),
    ("rs2542052", rule_rs2542052),
    ("rs28929474", rule_rs28929474),
    ("rs671", rule_rs671),
    ("rs1229984", rule_rs1229984) ]

/-- Curated-rule genotype lookup (`full_health_analysis.py` lines
97-100 and its copies): `info['variants'].get(genotype) or
info['variants'].get(genotype_rev)`, where `genotype_rev` is the
two-character reversal. -/
def curatedLookup (variants : List (String × VariantInfo)) (genotype : String) :
    Option VariantInfo :=
  let genotype_rev := if genotype.length = 2 then strRev genotype else genotype
  match dictGet genotype variants with
  | some v => some v
  | none => dictGet genotype_rev variants

/-- Project a variant interpretation to its `(status, magnitude)` pair. -/
def smOf (w : VariantInfo) : String × Nat := (w.status, w.magnitude)

/-- Decidable per-rule check: whenever both a genotype key and its
reversal are present in a variants table, their interpretations agree
up to the projection `f`. -/
def revConsistentBy {γ : Type} [DecidableEq γ] (f : VariantInfo → γ)
    (v : List (String × VariantInfo)) : Bool :=
  v.all (fun p =>
    match dictGet (strRev p.1) v with
    | some w => decide (f w = f p.2)
    | none => true)

/-!
### Supporting lemmas
-/

theorem strRev_strRev (s : String) : strRev (strRev s) = s := by
  cases s with
  | mk l => exact congrArg String.mk (List.reverse_reverse l)

theorem strRev_length (s : String) : (strRev s).length = s.length := by
  cases s with
  | mk l =>
    show l.reverse.length = l.length
    exact List.length_reverse l

theorem dictGet_mem {β : Type} {k : String} {v : β} :
    ∀ {l : List (String × β)}, dictGet k l = some v → (k, v) ∈ l := by
  intro l
  induction l with
  | nil => intro h; simp [dictGet] at h
  | cons p t ih =>
    intro h
    obtain ⟨a, b⟩ := p
    rw [show dictGet k ((a, b) :: t) = if a = k then some b else dictGet k t from rfl] at h
    by_cases hp : a = k
    · rw [if_pos hp] at h
      subst hp
      rw [Option.some.inj h]
      exact List.mem_cons_self _ _
    · rw [if_neg hp] at h
      exact List.mem_cons_of_mem _ (ih h)

theorem curatedLookup_rev_by {γ : Type} [DecidableEq γ] (f : VariantInfo → γ)
    (v : List (String × VariantInfo)) (hc : revConsistentBy f v = true)
    (g : String) (hg : g.length = 2) :
    (curatedLookup v (strRev g)).map f = (curatedLookup v g).map f := by
  have hg' : (strRev g).length = 2 := (strRev_length g).trans hg
  simp only [curatedLookup, hg, hg', if_pos, strRev_strRev]
  cases e1 : dictGet g v with
  | none =>
    cases e2 : dictGet (strRev g) v with
    | none => simp [e1, e2]
    | some b => simp [e1, e2]
  | some a =>
    cases e2 : dictGet (strRev g) v with
    | none => simp [e1, e2]
    | some b =>
      simp only [e1, e2, Option.map_some]
      have hmem : (g, a) ∈ v := dictGet_mem e1
      have hall := List.all_eq_true.mp hc (g, a) hmem
      rw [show dictGet (strRev (g, a).1) v = dictGet (strRev g) v from rfl, e2] at hall
      simpa using hall

theorem dictInsert_append {β : Type} (k : String) (v : β) :
    ∀ (d : List (String × β)), (∀ p ∈ d, p.1 ≠ k) → dictInsert k v d = d ++ [(k, v)] := by
  intro d
  induction d with
  | nil => intro _; rfl
  | cons p t ih =>
    intro h
    rw [show dictInsert k v (p :: t) =
          if p.1 = k then (k, v) :: t else p :: dictInsert k v t from rfl]
    rw [if_neg (h p (List.mem_cons_self _ _))]
    rw [ih (fun q hq => h q (List.mem_cons_of_mem _ hq))]
    simp

theorem foldl_dictInsert {β : Type} (key : GCall → String) (val : GCall → β) :
    ∀ (cs : List GCall) (d : List (String × β)),
      (d.map Prod.fst ++ cs.map key).Nodup →
      cs.foldl (fun d c => dictInsert (key c) (val c) d) d =
        d ++ cs.map (fun c => (key c, val c)) := by
  intro cs
  induction cs with
  | nil => intro d _; simp
  | cons c t ih =>
    intro d hnd
    have hsplit := List.nodup_append.mp hnd
    have hk : ∀ p ∈ d, p.1 ≠ key c := by
      intro p hp he
      exact hsplit.2.2 (List.mem_map_of_mem _ hp)
        (show p.1 ∈ (c :: t).map key by
          rw [he, List.map_cons]; exact List.mem_cons_self _ _)
    rw [List.foldl_cons, dictInsert_append _ _ d hk]
    rw [ih (d ++ [(key c, val c)]) (by
      have heq : (d ++ [(key c, val c)]).map Prod.fst ++ t.map key =
          d.map Prod.fst ++ (c :: t).map key := by simp
      rw [heq]; exact hnd)]
    simp

theorem dictGet_map_nodup {β : Type} (key : GCall → String) (val : GCall → β) :
    ∀ (cs : List GCall), (cs.map key).Nodup → ∀ c ∈ cs,
      dictGet (key c) (cs.map (fun c => (key c, val c))) = some (val c) := by
  intro cs
  induction cs with
  | nil => intro _ c hc; simp at hc
  | cons a t ih =>
    intro hnd c hc
    have hnd' := List.nodup_cons.mp (show (key a :: t.map key).Nodup from hnd)
    rw [show (a :: t).map (fun c => (key c, val c)) =
          (key a, val a) :: t.map (fun c => (key c, val c)) from rfl]
    rw [show dictGet (key c) ((key a, val a) :: t.map (fun c => (key c, val c))) =
          if key a = key c then some (val a) else
            dictGet (key c) (t.map (fun c => (key c, val c))) from rfl]
    rcases List.mem_cons.mp hc with rfl | hct
    · rw [if_pos rfl]
    · have hne : key a ≠ key c := by
        intro he
        exact hnd'.1 (he ▸ List.mem_map_of_mem key hct)
      rw [if_neg hne]
      exact ih hnd'.2 c hct

theorem inheritanceLower_eq_pyLower (s : String) : inheritanceLower s = pyLower s := by
  by_cases h : s = ""
  · subst h; rfl
  · simp [inheritanceLower, h]

/-!
### Claims
-/

/-- C1: for every ClinVar record matched by position, if the
individual's genotype equals `ref+ref` (homozygous reference), the
record is skipped by both loaders — no Finding is emitted and no
category bucket receives the record, whatever the significance text or
gold-star count. -/
theorem clinvar_homref_no_finding (row : ClinvarRow) (g rsid : String)
    (h : g = row.ref ++ row.ref) :
    processClinvarDRA row g rsid = .ok none ∧ processClinvarRFA row g rsid = .ok none := by
  rcases Decidable.em (row.ref.length ≠ 1 ∨ row.alt.length ≠ 1) with hsnv | hsnv
  · constructor <;> simp [processClinvarDRA, processClinvarRFA, hsnv]
  · constructor <;> simp [processClinvarDRA, processClinvarRFA, hsnv, h]

/-- Witness for C1 at a concrete pathogenic SNV record with a
homozygous-reference `AA` call. -/
theorem clinvar_homref_no_finding_witness :
    ("AA" : String) = "A" ++ "A" ∧
      (processClinvarDRA
          ⟨"1", "100", "A", "G", "Pathogenic", "criteria provided", "2",
            "Condition", "Autosomal recessive", "GENE1"⟩ "AA" "rs1" = .ok none ∧
        processClinvarRFA
          ⟨"1", "100", "A", "G", "Pathogenic", "criteria provided", "2",
            "Condition", "Autosomal recessive", "GENE1"⟩ "AA" "rs1" = .ok none) :=
  ⟨rfl, clinvar_homref_no_finding _ "AA" "rs1" rfl⟩

/-- C2: a ClinVar record whose `ref` or `alt` allele is longer than one
character (a non-SNV) produces no Finding in either loader, regardless
of the genotype found at its position. -/
theorem clinvar_nonsnv_no_finding (row : ClinvarRow) (g rsid : String)
    (h : row.ref.length ≠ 1 ∨ row.alt.length ≠ 1) :
    processClinvarDRA row g rsid = .ok none ∧ processClinvarRFA row g rsid = .ok none := by
  constructor <;> simp [processClinvarDRA, processClinvarRFA, h]

/-- Witness for C2 at a concrete deletion record (`ref="AT"`, `alt="A"`)
with genotype `AA` at the matched position. -/
theorem clinvar_nonsnv_no_finding_witness :
    (("AT" : String).length ≠ 1 ∨ ("A" : String).length ≠ 1) ∧
      (processClinvarDRA
          ⟨"1", "100", "AT", "A", "Pathogenic", "criteria provided", "2",
            "Condition", "", "GENE1"⟩ "AA" "rs1" = .ok none ∧
        processClinvarRFA
          ⟨"1", "100", "AT", "A", "Pathogenic", "criteria provided", "2",
            "Condition", "", "GENE1"⟩ "AA" "rs1" = .ok none) :=
  ⟨Or.inl (by decide), clinvar_nonsnv_no_finding _ "AA" "rs1" (Or.inl (by decide))⟩

/-- C3: `classify_zygosity_impact` is a pure function of
`(is_homozygous, is_heterozygous, inheritance_text)` and agrees with
the spec's §4.4 decision table (rows applied top to bottom,
case-insensitive substring matching) on every input. -/
theorem zygosity_matches_spec_table (is_hom is_het : Bool) (inh : String) :
    (classify_zygosity_impact is_hom is_het inh).1 = specZygosityTable is_hom is_het inh := by
  cases is_hom <;> cases is_het <;>
    simp only [classify_zygosity_impact, specZygosityTable] <;>
    split_ifs <;> rfl

/-- Counterexample to C4: on a heterozygous call with inheritance text
`x-linked`, `classify_zygosity_impact` returns `CARRIER/AT_RISK` while
`classify_zygosity` (and the inline protocol classification) return
`HETEROZYGOUS` — the three classifiers do not apply the table
identically. -/
theorem zygosity_classifiers_disagree :
    (classify_zygosity_impact false true "x-linked").1 = "CARRIER/AT_RISK" ∧
      (classify_zygosity false true "x-linked").1 = "HETEROZYGOUS" ∧
      protocol_classify false true "x-linked" = some "HETEROZYGOUS" ∧
      (classify_zygosity_impact false true "x-linked").1 ≠
        (classify_zygosity false true "x-linked").1 := by
  decide

/-- C4 amended: `classify_zygosity` and the inline classification of
`generate_actionable_protocol` agree on every triple whose flags are
homozygous or heterozygous (the inline code classifies into no list
otherwise), and `classify_zygosity_impact` agrees with both except on
heterozygous inputs whose inheritance text contains `x-linked` but
neither `recessive` nor `dominant`, where it alone returns
`CARRIER/AT_RISK`. -/
theorem zygosity_classifiers_agreement (is_hom is_het : Bool) (inh : String) :
    ((is_hom || is_het) = true →
      protocol_classify is_hom is_het inh = some (classify_zygosity is_hom is_het inh).1) ∧
    (¬ (is_hom = false ∧ is_het = true ∧
        strContains (inheritanceLower inh) "x-linked" = true ∧
        strContains (inheritanceLower inh) "recessive" = false ∧
        strContains (inheritanceLower inh) "dominant" = false) →
      (classify_zygosity_impact is_hom is_het inh).1 =
        (classify_zygosity is_hom is_het inh).1) := by
  constructor
  · intro hflag
    cases is_hom
    · cases is_het
      · simp at hflag
      · simp only [protocol_classify, classify_zygosity, inheritanceLower_eq_pyLower]
        split_ifs <;> rfl
    · simp [protocol_classify, classify_zygosity]
  · intro h
    cases is_hom
    · cases is_het
      · rfl
      · by_cases hr : strContains (inheritanceLower inh) "recessive" = true
        · simp [classify_zygosity_impact, classify_zygosity, hr]
        · by_cases hd : strContains (inheritanceLower inh) "dominant" = true
          · simp [classify_zygosity_impact, classify_zygosity, hr, hd]
          · by_cases hx : strContains (inheritanceLower inh) "x-linked" = true
            · exact absurd ⟨rfl, rfl, hx, by simpa using hr, by simpa using hd⟩ h
            · simp [classify_zygosity_impact, classify_zygosity, hr, hd, hx]
    · simp [classify_zygosity_impact, classify_zygosity]

/-- Witness for C4 amended at a heterozygous autosomal-recessive input. -/
theorem zygosity_classifiers_agreement_witness :
    protocol_classify false true "Autosomal recessive" =
        some (classify_zygosity false true "Autosomal recessive").1 ∧
      (classify_zygosity_impact false true "Autosomal recessive").1 =
        (classify_zygosity false true "Autosomal recessive").1 :=
  ⟨(zygosity_classifiers_agreement false true _).1 (by decide),
    (zygosity_classifiers_agreement false true _).2 (by decide)⟩

/-- Counterexample to C5: a record with significance text
`Uncertain significance` and two gold stars lands in the
`uncertain_but_notable` bucket of the claimed ordered rule list (and of
`disease_risk_analyzer`), but `run_full_analysis`'s chain — one of the
claim's cited classifiers — has no such bucket and emits no Finding for
it. -/
theorem uncertain_bucket_divergence :
    firstMatch specSigRules (pyLower "Uncertain significance") 2 = some .uncertainButNotable ∧
      categorize_dra (pyLower "Uncertain significance") 2 = some .uncertainButNotable ∧
      categorize_rfa (pyLower "Uncertain significance") 2 = none ∧
      processClinvarRFA
        ⟨"1", "100", "A", "G", "Uncertain significance", "criteria provided", "2",
          "Condition", "", "GENE1"⟩ "AG" "rs1" = .ok none :=
  ⟨by decide, by decide, by decide, rfl⟩

/-- C5 amended: classification is first-match-wins over the spec's
ordered rule list — `disease_risk_analyzer` follows the full
seven-bucket list, while `run_full_analysis` follows its first six
rules (records reaching the `uncertain_but_notable` rule produce no
Finding there); in both, a record lands in at most one bucket and a
record matching no rule produces no Finding. -/
theorem significance_chain_first_match (sig : String) (stars : Int) :
    categorize_dra sig stars = firstMatch specSigRules sig stars ∧
      categorize_rfa sig stars = firstMatch specSigRulesCommon sig stars := by
  constructor <;>
    simp only [categorize_dra, categorize_rfa, specSigRules, specSigRulesCommon, firstMatch,
      List.cons_append, List.nil_append]

/-- Counterexample to C6: rule rs1799752 keys both `DI` and `ID` with
orientation-specific descriptions, so looking up the reversed genotype
yields a different interpretation (its description differs) — lookup is
not identical under reversal for every rule. -/
theorem curated_reversal_not_identical :
    ("rs1799752", rule_rs1799752) ∈ COMPREHENSIVE_SNPS ∧
      ("DI" : String).length = 2 ∧
      curatedLookup rule_rs1799752.variants (strRev "DI") ≠
        curatedLookup rule_rs1799752.variants "DI" :=
  ⟨by decide, by decide, by decide⟩

/-- C6 amended: for every curated rule and every two-character genotype
`g`, lookup with `reverse(g)` yields the same status and magnitude as
lookup with `g`; the full interpretation (description included) is
identical for every rule other than rs1799752. -/
theorem curated_lookup_reversal (p : String × SnpRule) (hp : p ∈ COMPREHENSIVE_SNPS)
    (g : String) (hg : g.length = 2) :
    (curatedLookup p.2.variants (strRev g)).map smOf =
        (curatedLookup p.2.variants g).map smOf ∧
      (p.1 ≠ "rs1799752" →
        curatedLookup p.2.variants (strRev g) = curatedLookup p.2.variants g) := by
  constructor
  · refine curatedLookup_rev_by smOf p.2.variants ?_ g hg
    have hall : COMPREHENSIVE_SNPS.all (fun q => revConsistentBy smOf q.2.variants) = true := by
      decide
    exact List.all_eq_true.mp hall p hp
  · intro hne
    have hall : COMPREHENSIVE_SNPS.all
        (fun q => decide (q.1 = "rs1799752") || revConsistentBy (fun w => w) q.2.variants) =
          true := by
      decide
    have h2 := List.all_eq_true.mp hall p hp
    rw [Bool.or_eq_true] at h2
    rcases h2 with h2 | h2
    · exact absurd (of_decide_eq_true h2) hne
    · have hmap := curatedLookup_rev_by (fun w => w) p.2.variants h2 g hg
      simpa using hmap

/-- Witness for C6 amended at rule rs762551 and genotype `AC`. -/
theorem curated_lookup_reversal_witness :
    (("rs762551", rule_rs762551) ∈ COMPREHENSIVE_SNPS ∧ ("AC" : String).length = 2) ∧
      ((curatedLookup rule_rs762551.variants (strRev "AC")).map smOf =
          (curatedLookup rule_rs762551.variants "AC").map smOf ∧
        ("rs762551" ≠ "rs1799752" →
          curatedLookup rule_rs762551.variants (strRev "AC") =
            curatedLookup rule_rs762551.variants "AC")) :=
  ⟨⟨by decide, by decide⟩,
    curated_lookup_reversal ("rs762551", rule_rs762551) (by decide) "AC" (by decide)⟩

/-- Counterexample to C7: when two surviving lines share the position
key `chr1:100`, the second overwrites the first in
`genome_by_position` while both rsIDs stay in `genome_by_rsid`, so the
rs1 call is orphaned — the two maps do not describe the same surviving
set of calls. -/
theorem genome_maps_duplicate_position_orphan :
    ¬ (∀ p ∈ genome_by_rsid ["rs1\tchr1\t100\tAA", "rs2\tchr1\t100\tCC"],
        dictGet (p.2.chromosome ++ ":" ++ p.2.position)
            (genome_by_position ["rs1\tchr1\t100\tAA", "rs2\tchr1\t100\tCC"]) =
          some ⟨p.1, p.2.genotype⟩) := by
  decide

/-- C7 amended: when no two surviving input lines share an rsID and no
two share a `chrom:pos` key, the two maps contain the same surviving
set of calls — every `genome_by_rsid` entry is found at its position
key in `genome_by_position` with matching rsID and genotype, and
conversely. -/
theorem genome_index_consistency (lines : List String)
    (hr : ((parseCalls lines).map GCall.rsid).Nodup)
    (hp : ((parseCalls lines).map posKeyOf).Nodup) :
    (∀ p ∈ genome_by_rsid lines,
        dictGet (p.2.chromosome ++ ":" ++ p.2.position) (genome_by_position lines) =
          some ⟨p.1, p.2.genotype⟩) ∧
      (∀ q ∈ genome_by_position lines,
        ∃ e : GEntry, dictGet q.2.rsid (genome_by_rsid lines) = some e ∧
          e.chromosome ++ ":" ++ e.position = q.1 ∧ e.genotype = q.2.genotype) := by
  have er : genome_by_rsid lines =
      (parseCalls lines).map (fun c => (c.rsid, (⟨c.chrom, c.pos, c.genotype⟩ : GEntry))) := by
    have h := foldl_dictInsert (fun c => c.rsid)
      (fun c => (⟨c.chrom, c.pos, c.genotype⟩ : GEntry)) (parseCalls lines) []
      (by simpa using hr)
    simpa [genome_by_rsid] using h
  have ep : genome_by_position lines =
      (parseCalls lines).map (fun c => (posKeyOf c, (⟨c.rsid, c.genotype⟩ : PosEntry))) := by
    have h := foldl_dictInsert posKeyOf
      (fun c => (⟨c.rsid, c.genotype⟩ : PosEntry)) (parseCalls lines) []
      (by simpa using hp)
    simpa [genome_by_position] using h
  constructor
  · intro p hpmem
    rw [er] at hpmem
    obtain ⟨c, hc, hpc⟩ := List.mem_map.mp hpmem
    subst hpc
    rw [ep]
    have h := dictGet_map_nodup posKeyOf (fun c => (⟨c.rsid, c.genotype⟩ : PosEntry))
      (parseCalls lines) hp c hc
    simpa [posKeyOf] using h
  · intro q hq
    rw [ep] at hq
    obtain ⟨c, hc, hqc⟩ := List.mem_map.mp hq
    subst hqc
    refine ⟨⟨c.chrom, c.pos, c.genotype⟩, ?_, rfl, rfl⟩
    rw [er]
    have h := dictGet_map_nodup (fun c => c.rsid)
      (fun c => (⟨c.chrom, c.pos, c.genotype⟩ : GEntry)) (parseCalls lines) hr c hc
    simpa using h

/-- Witness for C7 amended on a two-line genome file with distinct
rsIDs and distinct positions. -/
theorem genome_index_consistency_witness :
    ((((parseCalls ["rs1\tchr1\t100\tAA", "rs2\tchr2\t200\tGG"]).map GCall.rsid).Nodup ∧
        ((parseCalls ["rs1\tchr1\t100\tAA", "rs2\tchr2\t200\tGG"]).map posKeyOf).Nodup) ∧
      ((∀ p ∈ genome_by_rsid ["rs1\tchr1\t100\tAA", "rs2\tchr2\t200\tGG"],
          dictGet (p.2.chromosome ++ ":" ++ p.2.position)
              (genome_by_position ["rs1\tchr1\t100\tAA", "rs2\tchr2\t200\tGG"]) =
            some ⟨p.1, p.2.genotype⟩) ∧
        (∀ q ∈ genome_by_position ["rs1\tchr1\t100\tAA", "rs2\tchr2\t200\tGG"],
          ∃ e : GEntry,
            dictGet q.2.rsid (genome_by_rsid ["rs1\tchr1\t100\tAA", "rs2\tchr2\t200\tGG"]) =
                some e ∧
              e.chromosome ++ ":" ++ e.position = q.1 ∧ e.genotype = q.2.genotype))) :=
  ⟨⟨by decide, by decide⟩, genome_index_consistency _ (by decide) (by decide)⟩

/-- Counterexample to C8: the lifestyle findings sort uses
`key=lambda x: -x['magnitude']` with no gene tie-break, so two
equal-magnitude findings keep their input order — gene `BBB` stays
before the alphabetically smaller `AAA`. -/
theorem lifestyle_sort_no_gene_tiebreak :
    sortLifestyle [⟨"BBB", 2⟩, ⟨"AAA", 2⟩] = [⟨"BBB", 2⟩, ⟨"AAA", 2⟩] ∧
      (⟨"BBB", 2⟩ : LFinding).magnitude = (⟨"AAA", 2⟩ : LFinding).magnitude ∧
      ¬ ((sortLifestyle [⟨"BBB", 2⟩, ⟨"AAA", 2⟩]).Pairwise
          (fun a b => a.magnitude = b.magnitude → a.gene ≤ b.gene)) := by
  refine ⟨by decide, rfl, ?_⟩
  intro hpw
  rw [show sortLifestyle [⟨"BBB", 2⟩, ⟨"AAA", 2⟩] = [⟨"BBB", 2⟩, ⟨"AAA", 2⟩] from by decide]
    at hpw
  have h := (List.pairwise_cons.mp hpw).1 _ (List.mem_cons_self _ _)
  exact absurd (h rfl) (by rw [String.le_iff_toList_le]; decide)

/-- C8 amended: the disease-risk finding lists (sorted with
`key=(-gold_stars, gene)`) are ordered by descending gold stars with an
alphabetical gene tie-break; the lifestyle findings list is sorted by
descending magnitude only, and the PharmGKB findings by ascending
evidence level, with no gene tie-break. -/
theorem findings_sort_order (ld : List ClinFinding) (ll : List LFinding) (lp : List PFinding) :
    (sortDisease ld).Pairwise (fun a b => a.gold_stars = b.gold_stars → a.gene ≤ b.gene) ∧
      (sortLifestyle ll).Sorted magDescRel ∧ (sortPharm lp).Sorted levelRel := by
  refine ⟨?_, List.sorted_insertionSort _ _, List.sorted_insertionSort _ _⟩
  have hs := List.sorted_insertionSort starsGeneRel ld
  exact hs.imp (fun {a b} hab heq =>
    (hab.resolve_left (by rw [heq]; exact lt_irrefl _)).2)

/-- Counterexample to C9: a nonempty malformed `gold_stars` field such
as `"abc"` is not replaced by 0 — the `int` conversion of the ClinVar
loader raises a `ValueError` on a record that passed all skip filters,
aborting the run. -/
theorem gold_stars_malformed_raises :
    gold_stars_field "abc" = .error "ValueError" ∧
      processClinvarDRA
        ⟨"1", "100", "A", "G", "Pathogenic", "criteria provided", "abc",
          "Condition", "", "GENE1"⟩ "AG" "rs1" = .error "ValueError" :=
  ⟨rfl, rfl⟩

/-- C9 amended: empty numeric fields default to 0 everywhere; malformed
nonempty values also default in `safe_float` (gnomAD) and in the
SNPedia magnitude parse, but a malformed nonempty `gold_stars` in the
ClinVar loaders raises a `ValueError` instead. -/
theorem numeric_field_defaults (s : String) (hne : s ≠ "") (hf : pyFloat s = none)
    (hi : pyInt s = none) :
    (safe_float (some s) 0 = 0 ∧ snpedia_magnitude s = 0 ∧
        gold_stars_field s = .error "ValueError") ∧
      (safe_float none 0 = 0 ∧ safe_float (some "") 0 = 0 ∧ snpedia_magnitude "" = 0 ∧
        gold_stars_field "" = .ok 0) := by
  refine ⟨⟨?_, ?_, ?_⟩, rfl, rfl, rfl, rfl⟩
  · rw [show safe_float (some s) 0 =
        (if s = "" ∨ s = "NA" ∨ s = "nan" ∨ s = "NaN" then 0
          else match pyFloat s with | some q => q | none => 0) from rfl]
    split_ifs
    · rfl
    · simp [hf]
  · unfold snpedia_magnitude
    rw [if_pos hne]
    simp [hf]
  · unfold gold_stars_field
    rw [if_neg hne]
    simp [hi]

/-- Witness for C9 amended at the malformed field text `abc`. -/
theorem numeric_field_defaults_witness :
    (("abc" : String) ≠ "" ∧ pyFloat "abc" = none ∧ pyInt "abc" = none) ∧
      ((safe_float (some "abc") 0 = 0 ∧ snpedia_magnitude "abc" = 0 ∧
          gold_stars_field "abc" = .error "ValueError") ∧
        (safe_float none 0 = 0 ∧ safe_float (some "") 0 = 0 ∧ snpedia_magnitude "" = 0 ∧
          gold_stars_field "" = .ok 0)) :=
  ⟨⟨by decide, rfl, rfl⟩, numeric_field_defaults "abc" (by decide) rfl rfl⟩

/-- C10: a PharmGKB finding is emitted only for evidence levels
1A/1B/2A/2B — every element of `pharmgkb_findings` carries one of
these four levels, for any annotation table and genome. -/
theorem pharmgkb_level_filter (pharmgkb : List (String × PharmEntry))
    (genome : List (String × GEntry)) (f : PFinding)
    (hf : f ∈ analyze_pharmgkb pharmgkb genome) :
    f.level = "1A" ∨ f.level = "1B" ∨ f.level = "2A" ∨ f.level = "2B" := by
  obtain ⟨p, hp, hpe⟩ := List.mem_filterMap.mp hf
  cases e1 : dictGet p.1 genome with
  | none =>
    rw [e1] at hpe
    dsimp only at hpe
    exact absurd hpe (by simp)
  | some ge =>
    rw [e1] at hpe
    dsimp only at hpe
    split_ifs at hpe with hcond
    obtain ⟨_, hl⟩ := hcond
    rw [← Option.some.inj hpe]
    exact hl

/-- Witness for C10 at a one-entry PharmGKB table with level 1A matched
by the genome call `CC` at rs762551. -/
theorem pharmgkb_level_filter_witness :
    ((⟨"rs762551", "CYP1A2", "caffeine", "CC", "Slow metabolizer annotation text", "1A",
          "Metabolism"⟩ : PFinding) ∈
        analyze_pharmgkb
          [("rs762551",
            ⟨"CYP1A2", "caffeine", "", "1A", "Metabolism",
              [("CC", "Slow metabolizer annotation text")]⟩)]
          [("rs762551", ⟨"15", "75041917", "CC"⟩)]) ∧
      ((⟨"rs762551", "CYP1A2", "caffeine", "CC", "Slow metabolizer annotation text", "1A",
            "Metabolism"⟩ : PFinding).level = "1A" ∨
        (⟨"rs762551", "CYP1A2", "caffeine", "CC", "Slow metabolizer annotation text", "1A",
            "Metabolism"⟩ : PFinding).level = "1B" ∨
        (⟨"rs762551", "CYP1A2", "caffeine", "CC", "Slow metabolizer annotation text", "1A",
            "Metabolism"⟩ : PFinding).level = "2A" ∨
        (⟨"rs762551", "CYP1A2", "caffeine", "CC", "Slow metabolizer annotation text", "1A",
            "Metabolism"⟩ : PFinding).level = "2B") :=
  ⟨by decide,
    pharmgkb_level_filter
      [("rs762551",
        ⟨"CYP1A2", "caffeine", "", "1A", "Metabolism",
          [("CC", "Slow metabolizer annotation text")]⟩)]
      [("rs762551", ⟨"15", "75041917", "CC"⟩)]
      ⟨"rs762551", "CYP1A2", "caffeine", "CC", "Slow metabolizer annotation text", "1A",
        "Metabolism"⟩
      (by decide)⟩
